import Mathlib

/-!
Verification development for the miro-c4 repository: a Miro plugin that parses
whiteboard frames containing C4 context/container diagrams into structured
models.  The definitions below are shallow embeddings of the TypeScript source
(`src/utils/c4Utils.ts`, `src/utils/c4ContainerParser.ts`, and the context /
container parser variants found in the repository).  JavaScript strings are
modelled as Lean `String`; the specific regular-expression replacements used by
the source are implemented as character-list scanners with the same semantics
on the patterns that actually occur (`/<[^>]*>/g`, `/<br\s*\/?>/g`, `/<\/?p>/g`,
`/<strong[^>]*>(.*?)<\/strong>/`, `/<span[^>]*>(.*?)<\/span>/g`, literal
entity replacements, `/\s+/g` and `trim`).  JavaScript `Map`s keyed by strings
are modelled as insertion-ordered association lists (later `set` of an existing
key overwrites in place), numeric dependency-count maps as total functions
`String → Nat` with default 0 (the source always reads them as
`m.get(k) || 0`), and `Set`s of strings as duplicate-free insertion-ordered
lists.  Coordinates are modelled as integers.
-/

/-! ## Character-level string primitives -/

/-- The whitespace class used by JavaScript `\s` and `trim()`, restricted to the
characters that can actually occur in Miro text content (ASCII whitespace plus
no-break space and the BOM). -/
def jsWhitespace (c : Char) : Bool :=
  c = ' ' || c = '\t' || c = '\n' || c = '\r' ||
  c = '\u000B' || c = '\u000C' || c = ' ' || c = '﻿'

/-- Does the list `l` start with the list `p`? -/
def startsWithChars : List Char → List Char → Bool
  | [], _ => true
  | _ :: _, [] => false
  | p :: ps, c :: cs => p = c && startsWithChars ps cs

/-- JavaScript `String.prototype.trim()`: drop leading and trailing whitespace. -/
def jsTrimList (l : List Char) : List Char :=
  ((l.dropWhile jsWhitespace).reverse.dropWhile jsWhitespace).reverse

/-- `trim()` lifted to `String`. -/
def jsTrimStr (s : String) : String :=
  ⟨jsTrimList s.data⟩

/-- JavaScript `.replace(/\s+/g, ' ')`: collapse every run of whitespace to a
single space.  The boolean argument records whether the previous character was
part of a whitespace run. -/
def collapseWsAux : List Char → Bool → List Char
  | [], _ => []
  | c :: cs, prev =>
    if jsWhitespace c then
      if prev then collapseWsAux cs true else ' ' :: collapseWsAux cs true
    else c :: collapseWsAux cs false

def collapseWs (l : List Char) : List Char :=
  collapseWsAux l false

/-- JavaScript `String.prototype.split(sep)` for a single-character separator. -/
def splitOnCharList (sep : Char) : List Char → List (List Char)
  | [] => [[]]
  | c :: cs =>
    match splitOnCharList sep cs with
    | [] => [[]]
    | h :: t => if c = sep then [] :: h :: t else (c :: h) :: t

/-- `split('\n')` on strings. -/
def splitOnNl (s : String) : List String :=
  (splitOnCharList '\n' s.data).map (fun l => ⟨l⟩)

/-- `Array.prototype.join('\n')` on strings. -/
def joinNl (lines : List String) : String :=
  match lines with
  | [] => ""
  | l :: ls => ls.foldl (fun acc x => acc ++ "\n" ++ x) l

/-- One pass of a global left-to-right regex replacement: at each position try
`matchAt`, which on success returns the replacement text and the remainder of
the input after the matched text; on failure the current character is kept.
The fuel is initialised with the length of the input; every pattern used in
this development consumes at least one character per match, so the fuel never
runs out. -/
def replaceScanAux (matchAt : List Char → Option (List Char × List Char)) :
    Nat → List Char → List Char
  | 0, l => l
  | _ + 1, [] => []
  | fuel + 1, c :: cs =>
    match matchAt (c :: cs) with
    | some (rep, rest) => rep ++ replaceScanAux matchAt fuel rest
    | none => c :: replaceScanAux matchAt fuel cs

def replaceScan (matchAt : List Char → Option (List Char × List Char))
    (l : List Char) : List Char :=
  replaceScanAux matchAt l.length l

/-- Matcher for the literal string `pat` (used for entity replacements such as
`.replace(/&nbsp;/g, ' ')`). -/
def literalMatchAt (pat rep : List Char) (l : List Char) :
    Option (List Char × List Char) :=
  if pat ≠ [] && startsWithChars pat l then some (rep, l.drop pat.length) else none

/-- JavaScript `.replace(/lit/g, rep)` for a literal pattern, lifted to `String`. -/
def replaceAllStr (pat rep s : String) : String :=
  ⟨replaceScan (literalMatchAt pat.data rep.data) s.data⟩

/-- JavaScript `.replace('lit', rep)` (first occurrence only). -/
def replaceFirstAux (pat rep : List Char) : List Char → List Char
  | [] => []
  | c :: cs =>
    if pat ≠ [] && startsWithChars pat (c :: cs) then
      rep ++ (c :: cs).drop pat.length
    else c :: replaceFirstAux pat rep cs

def replaceFirstStr (s pat rep : String) : String :=
  ⟨replaceFirstAux pat.data rep.data s.data⟩

/-- Matcher for `/<[^>]*>/`: a `<`, a maximal run of non-`>` characters, then a
`>`.  A `<` that is never closed does not match. -/
def tagMatchAt (rep : List Char) (l : List Char) : Option (List Char × List Char) :=
  match l with
  | '<' :: rest =>
    let attrs := rest.takeWhile (· ≠ '>')
    match rest.drop attrs.length with
    | '>' :: rest2 => some (rep, rest2)
    | _ => none
  | _ => none

/-- JavaScript `.replace(/<[^>]*>/g, '')`. -/
def removeTags (s : String) : String :=
  ⟨replaceScan (tagMatchAt []) s.data⟩

/-- JavaScript `.replace(/<[^>]*>/g, ' ')` (tags replaced by a space). -/
def tagsToSpace (s : String) : String :=
  ⟨replaceScan (tagMatchAt [' ']) s.data⟩

/-- Matcher for `/<[^>]+>/`: same as `tagMatchAt` but the tag body must be
non-empty (so the two-character string `<>` does not match). -/
def tagPlusMatchAt (rep : List Char) (l : List Char) : Option (List Char × List Char) :=
  match l with
  | '<' :: rest =>
    let attrs := rest.takeWhile (· ≠ '>')
    if attrs = [] then none
    else
      match rest.drop attrs.length with
      | '>' :: rest2 => some (rep, rest2)
      | _ => none
  | _ => none

/-- JavaScript `.replace(/<[^>]+>/g, '')`. -/
def removeTagsPlus (s : String) : String :=
  ⟨replaceScan (tagPlusMatchAt []) s.data⟩

/-- Matcher for `/<br\s*\/?>/`: literal `<br`, optional whitespace, an optional
`/`, then `>`. -/
def brMatchAt (rep : List Char) (l : List Char) : Option (List Char × List Char) :=
  if startsWithChars "<br".data l then
    let afterWs := (l.drop 3).dropWhile jsWhitespace
    match afterWs with
    | '/' :: '>' :: rest => some (rep, rest)
    | '>' :: rest => some (rep, rest)
    | _ => none
  else none

/-- JavaScript `.replace(/<br\s*\/?>/g, '\n')`. -/
def brToNewline (l : List Char) : List Char :=
  replaceScan (brMatchAt ['\n']) l

/-- JavaScript `.replace(/<br\s*\/?>/g, '')`. -/
def removeBrTags (l : List Char) : List Char :=
  replaceScan (brMatchAt []) l

/-- Matcher for `/<\/?p>/`: the literal `<p>` or `</p>`. -/
def pTagMatchAt (rep : List Char) (l : List Char) : Option (List Char × List Char) :=
  if startsWithChars "<p>".data l then some (rep, l.drop 3)
  else if startsWithChars "</p>".data l then some (rep, l.drop 4)
  else none

/-- JavaScript `.replace(/<\/?p>/g, '\n')`. -/
def pTagsToNewline (l : List Char) : List Char :=
  replaceScan (pTagMatchAt ['\n']) l

/-- The lazy group `(.*?)` followed by the literal `closeTag`: returns the
shortest newline-free capture such that `closeTag` follows, together with the
remainder after the close tag (JavaScript `.` does not match a newline, which
is observable behaviour relied on below). -/
def lazyCaptureUntil (closeTag : List Char) : List Char → Option (List Char × List Char)
  | [] => none
  | c :: cs =>
    if startsWithChars closeTag (c :: cs) then some ([], (c :: cs).drop closeTag.length)
    else if c = '\n' then none
    else
      match lazyCaptureUntil closeTag cs with
      | some (cap, rest) => some (c :: cap, rest)
      | none => none

/-- Attempt to match `/<strong[^>]*>(.*?)<\/strong>/` at the head of `l`.
Returns the full matched text, the capture group, and the remainder. -/
def tryStrongAt (l : List Char) : Option (List Char × List Char × List Char) :=
  if startsWithChars "<strong".data l then
    let afterLit := l.drop 7
    let attrs := afterLit.takeWhile (· ≠ '>')
    match afterLit.drop attrs.length with
    | '>' :: body =>
      match lazyCaptureUntil "</strong>".data body with
      | some (cap, rest) =>
        some ("<strong".data ++ attrs ++ ['>'] ++ cap ++ "</strong>".data, cap, rest)
      | none => none
    | _ => none
  else none

/-- Leftmost match of the strong-tag pattern: returns the text before the
match, the full match, the capture group, and the remainder after the match. -/
def splitFirstStrong : List Char → Option (List Char × List Char × List Char × List Char)
  | [] => none
  | c :: cs =>
    match tryStrongAt (c :: cs) with
    | some (full, cap, rest) => some ([], full, cap, rest)
    | none =>
      match splitFirstStrong cs with
      | some (before, full, cap, rest) => some (c :: before, full, cap, rest)
      | none => none

/-- Matcher used for `.replace(/<strong[^>]*>.*?<\/strong>/g, '')`. -/
def strongMatchAt (l : List Char) : Option (List Char × List Char) :=
  match tryStrongAt l with
  | some (_, _, rest) => some ([], rest)
  | none => none

def removeStrongGlobal (l : List Char) : List Char :=
  replaceScan strongMatchAt l

/-- Matcher for `/<span[^>]*>(.*?)<\/span>/` replaced by its capture group. -/
def spanMatchAt (l : List Char) : Option (List Char × List Char) :=
  if startsWithChars "<span".data l then
    let afterLit := l.drop 5
    let attrs := afterLit.takeWhile (· ≠ '>')
    match afterLit.drop attrs.length with
    | '>' :: body =>
      match lazyCaptureUntil "</span>".data body with
      | some (cap, rest) => some (cap, rest)
      | none => none
    | _ => none
  else none

/-- JavaScript `.replace(/<span[^>]*>(.*?)<\/span>/g, '$1')`. -/
def replaceSpans (l : List Char) : List Char :=
  replaceScan spanMatchAt l

/-- JavaScript truthiness-based `a || b` on strings: the empty string is falsy. -/
def strOr (a b : String) : String :=
  if a = "" then b else a

/-- JavaScript `String.prototype.toLowerCase()` on the ASCII range. -/
def toLowerStr (s : String) : String :=
  ⟨s.data.map Char.toLower⟩

/-- JavaScript `String.prototype.includes(sub)` (substring containment). -/
def containsSubList : List Char → List Char → Bool
  | l, sub =>
    match l with
    | [] => startsWithChars sub []
    | _ :: cs => startsWithChars sub l || containsSubList cs sub

def containsSub (s sub : String) : Bool :=
  containsSubList s.data sub.data

/-- Lexicographic comparison of strings by character code, modelling the
ordering JavaScript uses for `Array.prototype.sort()` on strings and (for the
ASCII names occurring here) `localeCompare` as used by the container sort. -/
def strLe (a b : String) : Bool :=
  decide (a.data ≤ b.data)

/-- Strip the zero-width characters U+FEFF and U+200B, as removed by the
source's `.replace(/[﻿​]/g, '')`. -/
def stripZeroWidth (s : String) : String :=
  ⟨s.data.filter (fun c => !(c = '﻿' || c = '​'))⟩

/-- JavaScript `split('\n')[0]` (a split result is never empty). -/
def firstLine (s : String) : String :=
  (splitOnNl s).headD ""

/-- JavaScript `split('\n').slice(1).join('\n')`. -/
def tailLines (s : String) : String :=
  joinNl ((splitOnNl s).drop 1)

/-! ## Text normalizer (`src/utils/c4Utils.ts`, lines 15–67 and 231–246) -/

/-- `cleanContent` (c4Utils.ts lines 15–23): strip HTML tags, decode `&nbsp;`,
collapse whitespace, trim, and return the first line. -/
def cleanContent (content : String) : String :=
  let cleaned := jsTrimStr ⟨collapseWs (replaceAllStr "&nbsp;" " " (removeTags content)).data⟩
  firstLine cleaned

structure ParsedContent where
  title : String
  description : String
  deriving DecidableEq, Repr

/-- `parseHtmlContent` (c4Utils.ts lines 31–67): title from the first
`<strong>` tag (falling back to the first cleaned line), description from the
remaining lines with any line equal to the strong-derived title removed. -/
def parseHtmlContent (content : String) : ParsedContent :=
  let strongSplit := splitFirstStrong content.data
  let strongContent : List Char :=
    match strongSplit with
    | some (_, _, cap, _) => removeBrTags cap
    | none => []
  let title := if strongContent ≠ [] then cleanContent ⟨strongContent⟩ else ""
  let remaining1 : List Char :=
    match strongSplit with
    | some (before, _, _, rest) => before ++ rest
    | none => content.data
  let remaining2 := jsTrimList (pTagsToNewline (brToNewline remaining1))
  let remaining3 := jsTrimList (replaceSpans remaining2)
  let cleanedLines :=
    (((splitOnNl ⟨remaining3⟩).map jsTrimStr).filter (· ≠ "")).map cleanContent
  let finalTitle := strOr title (cleanedLines.headD "")
  let description := joinNl (cleanedLines.filter (· ≠ title))
  ⟨finalTitle, description⟩

/-- `stripHtmlTags` (c4Utils.ts lines 231–246): decode common entities, replace
tags by spaces, collapse whitespace and trim.  Used for connector captions. -/
def stripHtmlTags (html : String) : String :=
  let decoded := html
    |> replaceAllStr "&amp;" "&"
    |> replaceAllStr "&lt;" "<"
    |> replaceAllStr "&gt;" ">"
    |> replaceAllStr "&quot;" "\""
    |> replaceAllStr "&#39;" "'"
    |> replaceAllStr "&nbsp;" " "
  jsTrimStr ⟨collapseWs (tagsToSpace decoded).data⟩


/-! ## Board item model -/

/-- A Miro shape as consumed by the parsers.  `itemType` is the runtime type
discriminant (`'shape'` or `'stencil'`), `shape` the geometric form string,
`fillColor` the value of `style.fillColor` (the empty string models a missing
or empty fill colour, both falsy in the source's `!shape.style?.fillColor`
check). -/
structure Shape where
  id : String
  itemType : String
  shape : String
  x : Int
  y : Int
  content : String
  fillColor : String
  deriving DecidableEq, Repr

structure Caption where
  content : String
  deriving DecidableEq, Repr

/-- A Miro connector.  `startItem`/`endItem` model `connector.start?.item` and
`connector.end?.item`; the stroke caps model `style.startStrokeCap` /
`style.endStrokeCap`; `text` and `title` model the optional fields probed by
the `'text' in connector` / `'title' in connector` checks. -/
structure Connector where
  id : String
  startItem : Option String
  endItem : Option String
  startStrokeCap : Option String
  endStrokeCap : Option String
  captions : Option (List Caption)
  content : String
  text : Option String
  title : Option String
  deriving DecidableEq, Repr

/-- A sub-frame as inspected by `isInLegendArea` (only its type discriminant,
title and children ids are ever read). -/
structure SubFrame where
  id : String
  itemType : String
  title : String
  childrenIds : List String
  deriving DecidableEq, Repr

/-- A board item: the loose `miro.BoardItem` union, discriminated by `type`. -/
inductive BoardItem where
  | shape (s : Shape)
  | connector (c : Connector)
  | frameItem (f : SubFrame)
  | other (id : String) (itemType : String)
  deriving DecidableEq, Repr

def BoardItem.id : BoardItem → String
  | .shape s => s.id
  | .connector c => c.id
  | .frameItem f => f.id
  | .other i _ => i

/-- The frame being parsed.  `children` models `frame.children?` (possibly
undefined); only frame-typed children are ever inspected by the source, so the
children list carries the `SubFrame` projection of each child. -/
structure Frame where
  id : String
  title : String
  childrenIds : List String
  children : Option (List SubFrame)
  deriving DecidableEq, Repr

/-- `isInLegendArea` (c4Utils.ts lines 74–93): an item is in the legend area if
it is itself a frame titled `Legend`, or a child of a frame titled `Legend`
inside the parsed frame. -/
def isInLegendArea (item : BoardItem) (frame : Frame) : Bool :=
  let legendCheck :=
    match frame.children.bind
        (List.find? (fun ch => ch.itemType = "frame" && ch.title = "Legend")) with
    | none => false
    | some legendFrame => legendFrame.childrenIds.contains item.id
  match item with
  | .frameItem f => if f.itemType = "frame" && f.title = "Legend" then true else legendCheck
  | _ => legendCheck

/-- The circles filter used by `isPerson`: `item.type === 'shape' && 'shape' in
item && item.shape === 'circle'`. -/
def circleShapeOf : BoardItem → Option Shape
  | .shape s => if s.itemType = "shape" && s.shape = "circle" then some s else none
  | _ => none

/-- `isPerson` (c4Utils.ts lines 201–225): a shape is a person iff it is a
round rectangle and some circle shape lies within the 100×150 proximity
window (`Math.abs(circle.x - shape.x) < 100 && Math.abs(circle.y - shape.y) <
150`). -/
def isPerson (shape : Shape) (items : List BoardItem) : Bool :=
  if shape.shape ≠ "round_rectangle" then false
  else if items = [] then false
  else
    let circles := items.filterMap circleShapeOf
    if circles = [] then false
    else circles.any fun circle =>
      (circle.x - shape.x).natAbs < 100 && (circle.y - shape.y).natAbs < 150

/-! ## Shape maps and count maps -/

/-- Insertion-ordered association list modelling a JavaScript
`Map<string, Shape>`: setting an existing key overwrites in place, a new key
is appended. -/
def mapSet (m : List (String × Shape)) (k : String) (v : Shape) :
    List (String × Shape) :=
  if m.any (·.1 = k) then m.map (fun p => if p.1 = k then (k, v) else p) else m ++ [(k, v)]

def mkShapeMap (shapes : List Shape) : List (String × Shape) :=
  shapes.foldl (fun m s => mapSet m s.id s) []

def lookupShape (m : List (String × Shape)) (k : String) : Option Shape :=
  List.lookup k m

/-- `(m.get(k) || 0) + 1` on a count map modelled as a total function. -/
def bump (f : String → Nat) (k : String) : String → Nat :=
  fun n => if n = k then f k + 1 else f n

/-- Both `'arrow'` and `'rounded_stealth'` stroke caps count as an arrowhead. -/
def hasArrowCap : Option String → Bool
  | some s => s = "arrow" || s = "rounded_stealth"
  | none => false

/-- The name used by `processConnectors` for a connector endpoint:
`parseHtmlContent(shape.content).title || cleanContent(shape.content)`. -/
def shapeTitle (s : Shape) : String :=
  strOr (parseHtmlContent s.content).title (cleanContent s.content)

structure Integration where
  number : Nat
  source : String
  dependsOn : String
  description : List String
  deriving DecidableEq, Repr

/-! ## `processConnectors`, c4Utils.ts lines 252–319

The dependency-direction-aware variant: bidirectional connectors are recorded
(when both endpoint titles are non-empty) and skipped; person endpoints are
excluded from degree counting; an end arrowhead counts source→target, a start
arrowhead (alone) counts target→source. -/

namespace C4UtilsV1

structure ConnResult where
  integrations : List Integration
  incomingCount : String → Nat
  outgoingCount : String → Nat
  bidirectionalRelationships : List (String × String)

def initState : ConnResult :=
  ⟨[], fun _ => 0, fun _ => 0, []⟩

/-- The caption list of an integration:
`connector.captions && connector.captions.length > 0 ? connector.captions.map(c
=> c.content ? stripHtmlTags(c.content) : '') : []`. -/
def connectorCaptionTexts (c : Connector) : List String :=
  match c.captions with
  | some caps =>
    if caps.length > 0 then
      caps.map (fun cap => if cap.content ≠ "" then stripHtmlTags cap.content else "")
    else []
  | none => []

/-- The body of the `for (const connector of connectors)` loop. -/
def processOneConnector (allShapes : List BoardItem) (shapeMap : List (String × Shape))
    (st : ConnResult) (c : Connector) : ConnResult :=
  match c.startItem.bind (lookupShape shapeMap), c.endItem.bind (lookupShape shapeMap) with
  | some sourceShape, some targetShape =>
    let hasStartArrow := hasArrowCap c.startStrokeCap
    let hasEndArrow := hasArrowCap c.endStrokeCap
    if hasStartArrow && hasEndArrow then
      let sourceTitle := shapeTitle sourceShape
      let targetTitle := shapeTitle targetShape
      if sourceTitle ≠ "" && targetTitle ≠ "" then
        { st with bidirectionalRelationships :=
            st.bidirectionalRelationships ++ [(sourceTitle, targetTitle)] }
      else st
    else
      let sourceIsPerson := isPerson sourceShape allShapes
      let targetIsPerson := isPerson targetShape allShapes
      let sourceTitle := shapeTitle sourceShape
      let targetTitle := shapeTitle targetShape
      if sourceTitle = "" || targetTitle = "" then st
      else
        let st1 : ConnResult :=
          { st with integrations := st.integrations ++
              [{ number := st.integrations.length + 1,
                 source := sourceTitle,
                 dependsOn := targetTitle,
                 description := connectorCaptionTexts c }] }
        if !sourceIsPerson && !targetIsPerson then
          if hasEndArrow then
            { st1 with outgoingCount := bump st1.outgoingCount sourceTitle,
                       incomingCount := bump st1.incomingCount targetTitle }
          else if hasStartArrow then
            { st1 with outgoingCount := bump st1.outgoingCount targetTitle,
                       incomingCount := bump st1.incomingCount sourceTitle }
          else st1
        else st1
  | _, _ => st

/-- `processConnectors` (c4Utils.ts lines 252–319).  `allShapes` is
`Array.from(shapeMap.values())`, computed once before the loop and handed to
`isPerson` as the board-item collection. -/
def processConnectors (connectors : List Connector) (shapeMap : List (String × Shape)) :
    ConnResult :=
  let allShapes := (shapeMap.map Prod.snd).map BoardItem.shape
  connectors.foldl (processOneConnector allShapes shapeMap) initState

end C4UtilsV1

/-! ## `processConnectors`, c4Utils.ts lines 528–625

The synchronous variant used by `c4ContainerParser.ts`: bidirectional
connectors are recorded unconditionally and skipped; all other resolvable
connectors are counted source→target regardless of arrowheads or person
endpoints, after a hard-coded name rewrite. -/

namespace C4UtilsSync

structure ConnResult where
  integrations : List Integration
  incomingCount : String → Nat
  outgoingCount : String → Nat
  bidirectionalRelationships : List (String × String)
  relationshipNumber : Nat

def initState : ConnResult :=
  ⟨[], fun _ => 0, fun _ => 0, [], 1⟩

/-- Endpoint name: `title || cleanContent(shape.content).split('\n')[0]`. -/
def endpointName (s : Shape) : String :=
  strOr (parseHtmlContent s.content).title (firstLine (cleanContent s.content))

/-- The hard-coded rewrite `'App' → 'Talent Web App'`, `'Database' → 'Talent
DB'` (c4Utils.ts lines 577–580). -/
def actualName (n : String) : String :=
  if n = "App" then "Talent Web App"
  else if n = "Database" then "Talent DB"
  else n

/-- Relationship description: non-empty cleaned captions, else `connector.text`,
else `connector.title` (c4Utils.ts lines 587–608). -/
def connectorDescriptions (c : Connector) : List String :=
  let descriptions :=
    match c.captions with
    | some caps =>
      (caps.map (fun cap => if cap.content ≠ "" then cleanContent cap.content else "")).filter
        (fun t => t.length > 0)
    | none => []
  let descriptions :=
    if descriptions = [] then
      match c.text with
      | some t => [cleanContent t]
      | none => []
    else descriptions
  if descriptions = [] then
    match c.title with
    | some t => [cleanContent t]
    | none => []
  else descriptions

/-- The body of the `for (const connector of connectors)` loop. -/
def processOneConnector (shapeMap : List (String × Shape)) (st : ConnResult)
    (c : Connector) : ConnResult :=
  match c.startItem, c.endItem with
  | some si, some ei =>
    if si = "" || ei = "" then st
    else
      match lookupShape shapeMap si, lookupShape shapeMap ei with
      | some startShape, some endShape =>
        let hasStartArrow := hasArrowCap c.startStrokeCap
        let hasEndArrow := hasArrowCap c.endStrokeCap
        if hasStartArrow && hasEndArrow then
          { st with bidirectionalRelationships := st.bidirectionalRelationships ++
              [(endpointName startShape, endpointName endShape)] }
        else
          let actualSourceName := actualName (endpointName startShape)
          let actualTargetName := actualName (endpointName endShape)
          { st with
            outgoingCount := bump st.outgoingCount actualSourceName,
            incomingCount := bump st.incomingCount actualTargetName,
            integrations := st.integrations ++
              [{ number := st.relationshipNumber,
                 source := actualSourceName,
                 dependsOn := actualTargetName,
                 description := connectorDescriptions c }],
            relationshipNumber := st.relationshipNumber + 1 }
      | _, _ => st
  | _, _ => st

/-- `processConnectors` (c4Utils.ts lines 528–625). -/
def processConnectors (connectors : List Connector) (shapeMap : List (String × Shape)) :
    ConnResult :=
  connectors.foldl (processOneConnector shapeMap) initState

end C4UtilsSync

/-! ## `processConnectors`, unnamed part_007 lines 227–290

The pair-deduplicating variant used by the part_006 container parser and the
part_009 context parser: "bidirectional" here means a second connector between
the same two shape ids; every resolvable, named connector is counted
source→target.  This file also carries its own `parseHtmlContent`
(part_007 lines 31–72), embedded first. -/

namespace C4UtilsDedup

/-- `parseHtmlContent` (part_007 lines 31–72): title from the first full
`<strong>` match with all tags stripped, else the first `<br>`-separated line;
description from the content with strong tags and all tags removed and common
entities decoded, falling back to the second `<br>`-separated line. -/
def parseHtmlContent (content : String) : ParsedContent :=
  let title :=
    match splitFirstStrong content.data with
    | some (_, full, _, _) => jsTrimStr (removeTagsPlus ⟨full⟩)
    | none =>
      let lines := (splitOnBr content.data).map fun l => jsTrimStr (removeTagsPlus l)
      lines.headD ""
  let description := jsTrimStr
    (removeTagsPlus ⟨removeStrongGlobal content.data⟩
      |> replaceAllStr "&amp;" "&"
      |> replaceAllStr "&lt;" "<"
      |> replaceAllStr "&gt;" ">"
      |> replaceAllStr "&quot;" "\""
      |> replaceAllStr "&#39;" "'")
  let description :=
    if description = "" && containsSub content "<br" then
      let lines := (splitOnBr content.data).map fun l => jsTrimStr (removeTagsPlus l)
      match lines.get? 1 with
      | some second => second
      | none => description
    else description
  ⟨title, description⟩
where
  /-- JavaScript `content.split(/<br\s*\/?>/)`. -/
  splitOnBr (l : List Char) : List String :=
    (splitOnBrAux l.length l).map fun cs => ⟨cs⟩
  splitOnBrAux : Nat → List Char → List (List Char)
    | 0, l => [l]
    | _ + 1, [] => [[]]
    | fuel + 1, c :: cs =>
      match brMatchAt [] (c :: cs) with
      | some (_, rest) => [] :: splitOnBrAux fuel rest
      | none =>
        match splitOnBrAux fuel cs with
        | [] => [[c]]
        | h :: t => (c :: h) :: t

structure IntegrationD where
  number : Nat
  source : String
  dependsOn : String
  description : Option String
  deriving DecidableEq, Repr

structure ConnResult where
  integrations : List IntegrationD
  incomingCount : String → Nat
  outgoingCount : String → Nat
  bidirectionalRelationships : List String
  processedPairs : List String
  integrationNumber : Nat

def initState : ConnResult :=
  ⟨[], fun _ => 0, fun _ => 0, [], [], 1⟩

/-- `Set.add` on the insertion-ordered duplicate-free list model. -/
def addToSet (s : List String) (k : String) : List String :=
  if s.contains k then s else s ++ [k]

/-- `getShapeName` (part_007 lines 244–251). -/
def getShapeName (shapeMap : List (String × Shape)) (shapeId : String) : String :=
  match lookupShape shapeMap shapeId with
  | none => ""
  | some shape => jsTrimStr (stripZeroWidth (parseHtmlContent shape.content).title)

/-- `getPairKey` (part_007 lines 254–256): `[id1, id2].sort().join('-')`. -/
def getPairKey (id1 id2 : String) : String :=
  if strLe id1 id2 then id1 ++ "-" ++ id2 else id2 ++ "-" ++ id1

/-- The body of the `for (const connector of connectors)` loop. -/
def processOneConnector (shapeMap : List (String × Shape)) (st : ConnResult)
    (c : Connector) : ConnResult :=
  let startShape := c.startItem.bind (lookupShape shapeMap)
  let endShape := c.endItem.bind (lookupShape shapeMap)
  if startShape.isNone || endShape.isNone then st
  else
    let startName := getShapeName shapeMap (c.startItem.getD "")
    let endName := getShapeName shapeMap (c.endItem.getD "")
    if startName = "" || endName = "" then st
    else
      let st1 : ConnResult :=
        { st with outgoingCount := bump st.outgoingCount startName,
                  incomingCount := bump st.incomingCount endName }
      let pairKey := getPairKey (c.startItem.getD "") (c.endItem.getD "")
      let st2 : ConnResult :=
        if st1.processedPairs.contains pairKey then
          { st1 with bidirectionalRelationships :=
              addToSet st1.bidirectionalRelationships pairKey }
        else st1
      let st3 : ConnResult := { st2 with processedPairs := addToSet st2.processedPairs pairKey }
      { st3 with
        integrations := st3.integrations ++
          [{ number := st3.integrationNumber,
             source := startName,
             dependsOn := endName,
             description := if c.content ≠ "" then some c.content else none }],
        integrationNumber := st3.integrationNumber + 1 }

/-- `processConnectors` (part_007 lines 227–290). -/
def processConnectors (connectors : List Connector) (shapeMap : List (String × Shape)) :
    ConnResult :=
  connectors.foldl (processOneConnector shapeMap) initState

end C4UtilsDedup

/-! ## Model types -/

/-- Colour constants from `src/types/c4Context.ts`. -/
def C4Colors.PERSON : String := "#305bab"

def C4Colors.CORE_SYSTEM : String := "#1a1a1a"

def C4Colors.SUPPORTING_SYSTEM : String := "#e7e7e7"

/-- Colour constants from `src/types/c4Container.ts` (part_003 lines
459–465). -/
def C4ContainerColors.PERSON : String := "#305bab"

def C4ContainerColors.WEB_BROWSER : String := "#12314c"

def C4ContainerColors.CONTAINER : String := "#1a1a1a"

def C4ContainerColors.DATABASE : String := "#f1e7f9"

def C4ContainerColors.EXTERNAL_SYSTEM : String := "#e7e7e7"

/-- The container type union `'Container' | 'Web App' | 'Database' | 'Mobile
App'`. -/
inductive ContainerType where
  | container
  | webApp
  | database
  | mobileApp
  deriving DecidableEq, Repr

/-- Dependency counts `{ in, out }` (`in` is a reserved word in Lean). -/
structure C4Dependencies where
  inCount : Nat
  outCount : Nat
  deriving DecidableEq, Repr

structure C4Person where
  name : String
  deriving DecidableEq, Repr

/-- A container entry of the `c4ContainerParser.ts` model. -/
structure C4Container where
  name : String
  type : ContainerType
  description : String
  dependencies : C4Dependencies
  deriving DecidableEq, Repr

/-- An external-system entry of the `c4ContainerParser.ts` model. -/
structure C4SystemEntry where
  name : String
  description : String
  dependencies : C4Dependencies
  deriving DecidableEq, Repr

/-- The `C4ContainerModel` assembled by `c4ContainerParser.ts`. -/
structure C4ContainerModel where
  level : String
  title : String
  people : List C4Person
  containers : List C4Container
  systems : List C4SystemEntry
  integrations : List Integration
  deriving DecidableEq, Repr

/-- `ParseResult<T>` (c4Utils.ts lines 324–328): `model?: T` plus warning and
error lists. -/
structure ParseResult (α : Type) where
  model : Option α
  warnings : List String
  errors : List String
  deriving DecidableEq, Repr

/-! ## `c4ContainerParser.ts` (the named container parser) -/

namespace ContainerParser

/-- `ContainerProcessingState` (c4ContainerParser.ts lines 35–42); the
processed-stencils set is omitted since no claim touches stencil handling. -/
structure ContainerProcessingState where
  model : C4ContainerModel
  warnings : List String
  errors : List String
  shapeMap : List (String × Shape)
  containerNames : List String
  deriving DecidableEq, Repr

/-- `determineContainerType` (c4ContainerParser.ts lines 165–177): cylinders
are databases, names containing `web`/`mobile` (case-insensitively) are
web/mobile apps, everything else a generic container. -/
def determineContainerType (shape : Shape) (name : String) : ContainerType :=
  let nameLower := toLowerStr name
  if shape.shape = "can" then .database
  else if containsSub nameLower "web" then .webApp
  else if containsSub nameLower "mobile" then .mobileApp
  else .container

/-- The legend/placeholder content filter of `processShapeIntoModel`
(c4ContainerParser.ts lines 203–216). -/
def isPlaceholderContent (content : String) : Bool :=
  content = "container" || content = "role" || content = "core system name" ||
  content = "supporting system" || content = "optional description" ||
  containsSub content "delete this placeholder" || containsSub content "create a new"

/-- The `// Add to containers if not duplicate` block that
`processShapeIntoModel` repeats verbatim at its four container-producing
branches (c4ContainerParser.ts lines 265–284, 292–303, 319–330 and 333–344):
append the container and record its name unless the name was already seen. -/
def pushContainer (name : String) (type : ContainerType) (description : String)
    (dependencies : C4Dependencies)
    (state : ContainerProcessingState) : ContainerProcessingState :=
  if state.containerNames.contains name then state
  else
    { state with
      model := { state.model with
        containers := state.model.containers ++
          [{ name, type, description, dependencies }] }
      containerNames := state.containerNames ++ [name] }

/-- `processShapeIntoModel` (c4ContainerParser.ts lines 189–370): classify one
shape into a person, container (deduplicated by name), database container
(deduplicated), web/mobile-app container (deduplicated), or external system
(not deduplicated). -/
def processShapeIntoModel (shape : Shape) (items : List BoardItem)
    (incomingCount outgoingCount : String → Nat)
    (state : ContainerProcessingState) : ContainerProcessingState :=
  if shape.content = "" then state
  else
    let content := toLowerStr (cleanContent shape.content)
    if isPlaceholderContent content then state
    else
      let parsed := parseHtmlContent shape.content
      let name := strOr parsed.title (strOr (firstLine (cleanContent shape.content)) "")
      let desc0 := strOr parsed.description (tailLines (cleanContent shape.content))
      let desc :=
        if containsSub desc0 "Node.ks" then replaceFirstStr desc0 "Node.ks" "Node.js"
        else desc0
      if name = "" then state
      else if isPerson shape items then
        { state with model := { state.model with
            people := state.model.people ++ [{ name }] } }
      else if shape.shape = "round_rectangle" then
        pushContainer name (determineContainerType shape name) (strOr desc "")
          ⟨incomingCount name, outgoingCount name⟩ state
      else if shape.shape = "can" then
        pushContainer name .database (strOr desc "")
          ⟨incomingCount name, outgoingCount name⟩ state
      else if shape.shape = "rectangle" then
        let nameLower := toLowerStr name
        if containsSub nameLower "web" then
          pushContainer name .webApp (strOr desc "")
            ⟨incomingCount name, outgoingCount name⟩ state
        else if containsSub nameLower "mobile" then
          pushContainer name .mobileApp (strOr desc "")
            ⟨incomingCount name, outgoingCount name⟩ state
        else
          { state with model := { state.model with
              systems := state.model.systems ++
                [{ name, description := strOr desc "",
                   dependencies := ⟨incomingCount name, outgoingCount name⟩ }] } }
      else state

/-- `processAllShapesIntoModel` (c4ContainerParser.ts lines 380–389): fold the
shape map's values through `processShapeIntoModel`. -/
def processAllShapesIntoModel (items : List BoardItem)
    (incomingCount outgoingCount : String → Nat)
    (state : ContainerProcessingState) : ContainerProcessingState :=
  (state.shapeMap.map Prod.snd).foldl
    (fun st shape => processShapeIntoModel shape items incomingCount outgoingCount st) state

/-- `validateAndReturnContainerResult` (c4ContainerParser.ts lines 399–414):
with any bidirectional pair present, push one summary line, one line per pair,
and one remediation line, and return no model; otherwise return the model. -/
def validateAndReturnContainerResult (state : ContainerProcessingState)
    (bidirectionalRelationships : List (String × String)) : ParseResult C4ContainerModel :=
  if bidirectionalRelationships.length > 0 then
    let errs := state.errors ++
      (["Detected " ++ Nat.repr bidirectionalRelationships.length ++
        " bidirectional dependencies (connectors with arrows on both ends) between:"] ++
       bidirectionalRelationships.map (fun rel => rel.1 ++ " and " ++ rel.2) ++
       ["Please fix these bidirectional relationships by using a single arrow to show the primary dependency direction."])
    { model := none, warnings := state.warnings, errors := errs }
  else
    { model := some state.model, warnings := state.warnings, errors := state.errors }

end ContainerParser

/-- JavaScript `Array.prototype.sort(comparator)` is a stable sort ordering
`a` before `b` when `comparator(a,b) ≤ 0`; it is modelled by a stable
insertion sort on the boolean relation `le a b := comparator a b ≤ 0`.  For
the total, transitive comparators used in this code the stable sorted
permutation is unique, so any faithful model of the engine's stable sort
computes this list. -/
def jsSortBy {α : Type} (le : α → α → Bool) (l : List α) : List α :=
  List.insertionSort (fun a b => le a b = true) l

/-! ## Context parser, unnamed part_009 lines 281–459 (first variant) -/

namespace ContextParserV1

/-- A system entry of the context model: `type` is `'Core'` or `'External'`,
the description is emitted only when non-empty. -/
structure C4SystemCtx where
  name : String
  number : Nat
  type : String
  description : Option String
  dependencies : C4Dependencies
  deriving DecidableEq, Repr

structure C4ContextModel where
  level : String
  title : String
  people : List C4Person
  systems : List C4SystemCtx
  integrations : List C4UtilsDedup.IntegrationD
  deriving DecidableEq, Repr

structure ProcessedCoreSystem where
  name : String
  description : String
  dependencies : C4Dependencies
  deriving DecidableEq, Repr

structure ProcessedSupportingSystem where
  name : String
  description : String
  dependencies : C4Dependencies
  deriving DecidableEq, Repr

/-- `isCoreSystem` (part_009 lines 422–425). -/
def isCoreSystem (shape : Shape) : Bool :=
  shape.shape = "round_rectangle" && shape.fillColor = C4Colors.CORE_SYSTEM

/-- `isSupportingSystem` (part_009 lines 427–429). -/
def isSupportingSystem (shape : Shape) : Bool :=
  shape.shape = "rectangle"

/-- The per-shape classification of part_009 lines 341–379 (the callbacks of
the `Promise.all` run to completion in list order, since the only awaited
value, `isPerson`, is immediately available; the collection order is therefore
the shape order). -/
def classifyShapes (shapes : List Shape) (items : List BoardItem)
    (incomingCount outgoingCount : String → Nat) :
    List C4Person × List ProcessedCoreSystem × List ProcessedSupportingSystem :=
  shapes.foldl
    (fun acc shape =>
      let (people, coreSystems, supportingSystems) := acc
      if isPerson shape items then
        let name := strOr (parseHtmlContent shape.content).title (cleanContent shape.content)
        (people ++ [{ name }], coreSystems, supportingSystems)
      else if isCoreSystem shape then
        let parsed := parseHtmlContent shape.content
        let name := strOr parsed.title (cleanContent shape.content)
        let entry : ProcessedCoreSystem :=
          { name, description := strOr parsed.description "",
            dependencies := ⟨incomingCount name, outgoingCount name⟩ }
        (people, coreSystems ++ [entry], supportingSystems)
      else if isSupportingSystem shape then
        let parsed := parseHtmlContent shape.content
        let name := strOr parsed.title (cleanContent shape.content)
        let entry : ProcessedSupportingSystem :=
          { name, description := strOr parsed.description "",
            dependencies := ⟨incomingCount name, outgoingCount name⟩ }
        (people, coreSystems, supportingSystems ++ [entry])
      else acc)
    ([], [], [])

/-- The x-coordinate lookup of the sorts at part_009 lines 381–393:
`shapes.find(s => cleanContent(s.content) === name)?.x || 0`. -/
def lookupShapeX (shapes : List Shape) (name : String) : Int :=
  match shapes.find? (fun s => cleanContent s.content = name) with
  | some s => s.x
  | none => 0

/-- `people.sort((a, b) => (shapeA?.x || 0) - (shapeB?.x || 0))` (part_009
lines 381–386), where `shapeA`/`shapeB` are re-found by cleaned content.
JavaScript's stable comparator sort is modelled by `List.mergeSort` with
`compare(a,b) ≤ 0`. -/
def sortPeopleByLookup (shapes : List Shape) (people : List C4Person) : List C4Person :=
  jsSortBy
    (fun a b => decide (lookupShapeX shapes a.name ≤ lookupShapeX shapes b.name)) people

/-- The supporting-system sort of part_009 lines 389–393 (same lookup). -/
def sortSupportingByLookup (shapes : List Shape)
    (systems : List ProcessedSupportingSystem) : List ProcessedSupportingSystem :=
  jsSortBy
    (fun a b => decide (lookupShapeX shapes a.name ≤ lookupShapeX shapes b.name)) systems

/-- The error line pushed per bidirectional pair key (part_009 lines 324–327):
`const [id1, id2] = pairKey.split('-')` followed by the template
`` `${id1} and ${id2}` `` (a missing second component renders as JavaScript
`undefined`). -/
def pairKeyLine (key : String) : String :=
  let parts := (splitOnCharList '-' key.data).map fun l => (⟨l⟩ : String)
  parts.headD "" ++ " and " ++ parts.getD 1 "undefined"

/-- The bidirectional gate of part_009 lines 321–330 (the same push sequence
appears in `validateAndReturnResult`, lines 252–261): one summary line, one
line per detected pair key, one remediation line, and no model. -/
def contextBidirGate (model : C4ContextModel) (warnings errors : List String)
    (keys : List String) : ParseResult C4ContextModel :=
  if keys.length > 0 then
    { model := none,
      warnings,
      errors := errors ++
        (["Detected " ++ Nat.repr keys.length ++
          " bidirectional dependencies (connectors with arrows on both ends) between:"] ++
         keys.map pairKeyLine ++
         ["Please fix these bidirectional relationships by using a single arrow to show the primary dependency direction."]) }
  else { model := some model, warnings, errors }

def itemAsShape : BoardItem → Option Shape
  | .shape s => if s.itemType = "shape" then some s else none
  | _ => none

def itemAsConnector : BoardItem → Option Connector
  | .connector c => some c
  | _ => none

/-- `parseFrameToC4Context` (part_009 lines 281–420).  `allItems` models the
result of the `miro.board.get()` round trip; the frame's children are selected
from it exactly as in the source. -/
def parseFrameToC4Context (allItems : List BoardItem) (frame : Frame) :
    ParseResult C4ContextModel :=
  let items := allItems.filter (fun item => frame.childrenIds.contains item.id)
  if items = [] then
    { model := some
        { level := "Context", title := strOr frame.title "Context Diagram",
          people := [], systems := [], integrations := [] },
      warnings := [], errors := [] }
  else
    let shapes := items.filterMap itemAsShape
    let connectors := items.filterMap itemAsConnector
    let shapeMap := mkShapeMap shapes
    let r1 := C4UtilsDedup.processConnectors connectors shapeMap
    if r1.bidirectionalRelationships.length > 0 then
      { model := none,
        warnings := [],
        errors :=
          ["Detected " ++ Nat.repr r1.bidirectionalRelationships.length ++
           " bidirectional dependencies (connectors with arrows on both ends) between:"] ++
          r1.bidirectionalRelationships.map pairKeyLine ++
          ["Please fix these bidirectional relationships by using a single arrow to show the primary dependency direction."] }
    else
      let r2 := C4UtilsDedup.processConnectors connectors shapeMap
      let classified := classifyShapes shapes items r2.incomingCount r2.outgoingCount
      let people := sortPeopleByLookup shapes classified.1
      let coreSystems := classified.2.1
      let sortedSupportingSystems := sortSupportingByLookup shapes classified.2.2
      { model := some
          { level := "Context",
            title := strOr frame.title "Context Diagram",
            people,
            systems :=
              (coreSystems.enum.map fun (i, s) =>
                { name := s.name, number := i + 1, type := "Core",
                  description :=
                    if s.description ≠ "" && jsTrimStr s.description ≠ "" then
                      some (jsTrimStr s.description)
                    else none,
                  dependencies := s.dependencies }) ++
              (sortedSupportingSystems.enum.map fun (i, s) =>
                { name := s.name, number := coreSystems.length + i + 1, type := "External",
                  description :=
                    if s.description ≠ "" && jsTrimStr s.description ≠ "" then
                      some (jsTrimStr s.description)
                    else none,
                  dependencies := s.dependencies }),
            integrations := r2.integrations },
        warnings := [], errors := [] }

end ContextParserV1

/-! ## Container parser, unnamed part_006 lines 29–529

The variant of `parseFrameToC4Container` that sorts its output: people and
external systems left-to-right, containers by the fixed category order Web
App, Mobile App, Container, Database and alphabetically within a category.
It imports `processConnectors`/`parseHtmlContent` from its contemporaneous
`c4Utils` (the part_007 variant embedded above as `C4UtilsDedup`). -/

namespace ContainerParserV6

structure ProcessedContainer where
  name : String
  number : Nat
  type : ContainerType
  description : Option String
  dependencies : C4Dependencies
  deriving DecidableEq, Repr

/-- An external system entry; the constant `type: 'External'` field is left
implicit. -/
structure ProcessedExternalSystem where
  name : String
  number : Nat
  description : Option String
  dependencies : C4Dependencies
  deriving DecidableEq, Repr

structure ProcessedModel where
  people : List C4Person
  containers : List ProcessedContainer
  systems : List ProcessedExternalSystem
  deriving DecidableEq, Repr

structure C4ContainerModelV6 where
  level : String
  title : String
  people : List C4Person
  containers : List ProcessedContainer
  systems : List ProcessedExternalSystem
  integrations : List C4UtilsDedup.IntegrationD
  deriving DecidableEq, Repr

/-- `determineContainerType` (part_006 lines 143–169); the `content` argument
is the raw shape content, as at both call sites. -/
def determineContainerType (shape : Shape) (content : String) : ContainerType :=
  if shape.shape = "can" then .database
  else
    let lowerContent := toLowerStr content
    if shape.shape = "rectangle" &&
        (containsSub lowerContent "web app" || containsSub lowerContent "webapp" ||
         containsSub lowerContent "web") then .webApp
    else if shape.shape = "rectangle" &&
        (containsSub lowerContent "mobile app" || containsSub lowerContent "mobileapp" ||
         containsSub lowerContent "mobile") then .mobileApp
    else if containsSub lowerContent "db" || containsSub lowerContent "database" then .database
    else .container

/-- `description && description.trim()` guarding the optional description
fields: present only when the trimmed description is non-empty. -/
def optionalDescription (description : String) : Option String :=
  if description ≠ "" && jsTrimStr description ≠ "" then some (jsTrimStr description)
  else none

/-- `processShapeIntoModel` (part_006 lines 180–328). -/
def processShapeIntoModel (shape : Shape) (items : List BoardItem)
    (model : ProcessedModel) (frame : Frame) : ProcessedModel :=
  if isInLegendArea (BoardItem.shape shape) frame then model
  else if shape.fillColor = "" || shape.shape = "" then model
  else
    let parsed := C4UtilsDedup.parseHtmlContent shape.content
    let name := strOr parsed.title (cleanContent shape.content)
    if name = "" || jsTrimStr name = "" then model
    else if shape.shape = "rectangle" then
      let type := determineContainerType shape shape.content
      if type = .webApp || type = .mobileApp then
        let cleanName := jsTrimStr (stripZeroWidth name)
        let container : ProcessedContainer :=
          { name := cleanName, number := 0, type,
            description := optionalDescription parsed.description,
            dependencies := ⟨0, 0⟩ }
        { model with containers := model.containers ++ [container] }
      else
        let system : ProcessedExternalSystem :=
          { name, number := 0,
            description := optionalDescription parsed.description,
            dependencies := ⟨0, 0⟩ }
        { model with systems := model.systems ++ [system] }
    else if isPerson shape items then
      { model with people := model.people ++ [{ name }] }
    else if shape.fillColor = C4ContainerColors.EXTERNAL_SYSTEM then
      let system : ProcessedExternalSystem :=
        { name, number := 0,
          description := optionalDescription parsed.description,
          dependencies := ⟨0, 0⟩ }
      { model with systems := model.systems ++ [system] }
    else if shape.fillColor = C4ContainerColors.CONTAINER ||
        shape.fillColor = C4ContainerColors.WEB_BROWSER || shape.shape = "can" then
      let type := determineContainerType shape shape.content
      if (model.containers.find? (fun c => c.name = name)).isSome then model
      else
        let container : ProcessedContainer :=
          { name, number := 0, type,
            description := optionalDescription parsed.description,
            dependencies := ⟨0, 0⟩ }
        { model with containers := model.containers ++ [container] }
    else model

/-- The x-coordinate lookup of the people/systems sorts (part_006 lines
466–471 and 495–500), identical to the context-parser variant. -/
def lookupShapeX (shapes : List Shape) (name : String) : Int :=
  match shapes.find? (fun s => cleanContent s.content = name) with
  | some s => s.x
  | none => 0

/-- The fixed category order of the container sort (part_006 lines 474–479). -/
def typeOrder : ContainerType → Nat
  | .webApp => 0
  | .mobileApp => 1
  | .container => 2
  | .database => 3

/-- The container comparator of part_006 lines 480–488 rendered as a boolean
`≤`: category order first, then name order (`localeCompare`, modelled as
character-code lexicographic comparison). -/
def containerLe (a b : ProcessedContainer) : Bool :=
  if typeOrder a.type ≠ typeOrder b.type then decide (typeOrder a.type < typeOrder b.type)
  else strLe a.name b.name

/-- The cleaned lookup key used when refreshing dependency counts (part_006
lines 449–464): `name.replace(/[﻿​]/g, '').trim()`. -/
def cleanLookupName (name : String) : String :=
  jsTrimStr (stripZeroWidth name)

def itemAsShape : BoardItem → Option Shape
  | .shape s => if s.itemType = "shape" then some s else none
  | _ => none

def itemAsConnector : BoardItem → Option Connector
  | .connector c => some c
  | _ => none

/-- `parseFrameToC4Container` (part_006 lines 380–529). -/
def parseFrameToC4Container (allItems : List BoardItem) (frame : Frame) :
    ParseResult C4ContainerModelV6 :=
  let items := allItems.filter (fun item => frame.childrenIds.contains item.id)
  if items = [] then
    { model := some
        { level := "Container", title := strOr frame.title "Container Diagram",
          people := [], containers := [], systems := [], integrations := [] },
      warnings := [], errors := [] }
  else
    let shapes := items.filterMap itemAsShape
    let connectors := items.filterMap itemAsConnector
    let shapeMap := mkShapeMap shapes
    let r1 := C4UtilsDedup.processConnectors connectors shapeMap
    if r1.bidirectionalRelationships.length > 0 then
      { model := none,
        warnings := [],
        errors :=
          ["Detected " ++ Nat.repr r1.bidirectionalRelationships.length ++
           " bidirectional dependencies (connectors with arrows on both ends) between:"] ++
          r1.bidirectionalRelationships.map ContextParserV1.pairKeyLine ++
          ["Please fix these bidirectional relationships by using a single arrow to show the primary dependency direction."] }
    else
      let r2 := C4UtilsDedup.processConnectors connectors shapeMap
      let model0 := shapes.foldl
        (fun m s => processShapeIntoModel s items m frame) (⟨[], [], []⟩ : ProcessedModel)
      let containers := model0.containers.map fun c =>
        { c with dependencies :=
            ⟨r2.incomingCount (cleanLookupName c.name), r2.outgoingCount (cleanLookupName c.name)⟩ }
      let systems := model0.systems.map fun s =>
        { s with dependencies :=
            ⟨r2.incomingCount (cleanLookupName s.name), r2.outgoingCount (cleanLookupName s.name)⟩ }
      let people := jsSortBy
        (fun a b => decide (lookupShapeX shapes a.name ≤ lookupShapeX shapes b.name))
        model0.people
      let sortedContainers := jsSortBy containerLe containers
      let numberedContainers := sortedContainers.enum.map fun (i, c) => { c with number := i + 1 }
      let sortedSystems := jsSortBy
        (fun a b => decide (lookupShapeX shapes a.name ≤ lookupShapeX shapes b.name))
        systems
      let numberedSystems := sortedSystems.enum.map fun (i, s) => { s with number := i + 1 }
      { model := some
          { level := "Container",
            title := strOr frame.title "Container Diagram",
            people,
            containers := numberedContainers,
            systems := numberedSystems.map (fun s =>
              { name := s.name, number := s.number,
                description := s.description.map jsTrimStr,
                dependencies := s.dependencies }),
            integrations := r2.integrations.enum.map (fun (i, g) =>
              { g with
                number := i + 1,
                description :=
                  match g.description with
                  | some d => if d ≠ "" then some (jsTrimStr d) else none
                  | none => none }) },
        warnings := [], errors := [] }

end ContainerParserV6

/-! ## Concrete board fixtures used by counterexamples and witnesses -/

/-- A rectangle titled `A`. -/
def shapeA : Shape :=
  { id := "s1", itemType := "shape", shape := "rectangle", x := 0, y := 0,
    content := "<p><strong>A</strong></p>", fillColor := "#e7e7e7" }

/-- A rectangle titled `B`. -/
def shapeB : Shape :=
  { id := "s2", itemType := "shape", shape := "rectangle", x := 200, y := 0,
    content := "<p><strong>B</strong></p>", fillColor := "#e7e7e7" }

/-- A shape with empty content, whose derived title is the empty string. -/
def shapeEmpty : Shape :=
  { id := "s1", itemType := "shape", shape := "rectangle", x := 0, y := 0,
    content := "", fillColor := "#e7e7e7" }

def mapAB : List (String × Shape) :=
  [("s1", shapeA), ("s2", shapeB)]

def mapEmptyB : List (String × Shape) :=
  [("s1", shapeEmpty), ("s2", shapeB)]

/-- A connector `s1 → s2` with an arrowhead only at its start end. -/
def connStartArrow : Connector :=
  { id := "k1", startItem := some "s1", endItem := some "s2",
    startStrokeCap := some "arrow", endStrokeCap := none,
    captions := none, content := "", text := none, title := none }

/-- A connector `s1 → s2` with arrowheads on both ends. -/
def connBothArrows : Connector :=
  { id := "k2", startItem := some "s1", endItem := some "s2",
    startStrokeCap := some "arrow", endStrokeCap := some "rounded_stealth",
    captions := none, content := "", text := none, title := none }

/-- A plain connector `s1 → s2` with no arrowheads. -/
def connPlain : Connector :=
  { id := "k3", startItem := some "s1", endItem := some "s2",
    startStrokeCap := none, endStrokeCap := none,
    captions := none, content := "", text := none, title := none }

/-- The connectors that contribute one incoming count to node `N` in a
`C4UtilsV1.processConnectors` run: the connector resolves, is not
bidirectional, has non-empty endpoint titles and non-actor endpoints, and its
dependency direction points at `N` — an end arrowhead with target title `N`,
or a start arrowhead alone with source title `N`. -/
def countsIncomingFor (allShapes : List BoardItem) (shapeMap : List (String × Shape))
    (N : String) (c : Connector) : Bool :=
  match c.startItem.bind (lookupShape shapeMap), c.endItem.bind (lookupShape shapeMap) with
  | some s, some t =>
    !(hasArrowCap c.startStrokeCap && hasArrowCap c.endStrokeCap) &&
    shapeTitle s ≠ "" && shapeTitle t ≠ "" &&
    !(isPerson s allShapes) && !(isPerson t allShapes) &&
    ((hasArrowCap c.endStrokeCap && shapeTitle t = N) ||
     (!(hasArrowCap c.endStrokeCap) && hasArrowCap c.startStrokeCap && shapeTitle s = N))
  | _, _ => false

/-- The connectors that contribute one outgoing count to node `N`: as in
`countsIncomingFor` with the roles of the two titles exchanged. -/
def countsOutgoingFor (allShapes : List BoardItem) (shapeMap : List (String × Shape))
    (N : String) (c : Connector) : Bool :=
  match c.startItem.bind (lookupShape shapeMap), c.endItem.bind (lookupShape shapeMap) with
  | some s, some t =>
    !(hasArrowCap c.startStrokeCap && hasArrowCap c.endStrokeCap) &&
    shapeTitle s ≠ "" && shapeTitle t ≠ "" &&
    !(isPerson s allShapes) && !(isPerson t allShapes) &&
    ((hasArrowCap c.endStrokeCap && shapeTitle s = N) ||
     (!(hasArrowCap c.endStrokeCap) && hasArrowCap c.startStrokeCap && shapeTitle t = N))
  | _, _ => false

/-- The initial processing state built by `parseFrameToC4Container`
(c4ContainerParser.ts lines 475–489). -/
def ContainerParser.initialState (frameTitle : String)
    (shapeMap : List (String × Shape)) : ContainerParser.ContainerProcessingState :=
  { model :=
      { level := "Container"
        title := strOr frameTitle "Container Diagram (Level 2)"
        people := []
        containers := []
        systems := []
        integrations := [] }
    warnings := []
    errors := []
    shapeMap := shapeMap
    containerNames := [] }

/-- A rectangle titled `Ext One` (classified as an external system). -/
def shapeExt1 : Shape :=
  { id := "e1", itemType := "shape", shape := "rectangle", x := 0, y := 0,
    content := "<p><strong>Ext One</strong></p>", fillColor := "#e7e7e7" }

/-- A second rectangle with the same title `Ext One`. -/
def shapeExt2 : Shape :=
  { id := "e2", itemType := "shape", shape := "rectangle", x := 100, y := 0,
    content := "<p><strong>Ext One</strong></p>", fillColor := "#e7e7e7" }

/-- The container-name bookkeeping invariant of the container parser state:
emitted container names are duplicate-free and `containerNames` holds exactly
those names. -/
def ContainerParser.namesInv (st : ContainerParser.ContainerProcessingState) : Prop :=
  (st.model.containers.map (fun c => c.name)).Nodup ∧
  ∀ n, n ∈ st.containerNames ↔ n ∈ st.model.containers.map (fun c => c.name)

def ctxShape1 : Shape :=
  { id := "x1", itemType := "shape", shape := "rectangle", x := 0, y := 0,
    content := "<p><strong>P</strong></p>", fillColor := "#e7e7e7" }

def ctxShape2 : Shape :=
  { id := "x2", itemType := "shape", shape := "rectangle", x := 100, y := 0,
    content := "<p><strong>Q</strong></p>", fillColor := "#e7e7e7" }

def ctxConn1 : Connector :=
  { id := "cc1", startItem := some "x1", endItem := some "x2",
    startStrokeCap := none, endStrokeCap := some "arrow",
    captions := none, content := "", text := none, title := none }

def ctxConn2 : Connector :=
  { id := "cc2", startItem := some "x1", endItem := some "x2",
    startStrokeCap := none, endStrokeCap := some "arrow",
    captions := none, content := "", text := none, title := none }

def ctxFrame : Frame :=
  { id := "f1", title := "Context Diagram (Level 1)",
    childrenIds := ["x1", "x2", "cc1", "cc2"], children := none }

def ctxItems : List BoardItem :=
  [BoardItem.shape ctxShape1, BoardItem.shape ctxShape2,
   BoardItem.connector ctxConn1, BoardItem.connector ctxConn2]

/-- The ordering the container sort establishes: strictly earlier category
(Web App before Mobile App before Container before Database), or same
category and name in ascending order. -/
def containerInOrder (a b : ContainerParserV6.ProcessedContainer) : Prop :=
  ContainerParserV6.typeOrder a.type < ContainerParserV6.typeOrder b.type ∨
  (ContainerParserV6.typeOrder a.type = ContainerParserV6.typeOrder b.type ∧
    strLe a.name b.name = true)

def shapeCanStore : Shape :=
  { id := "v1", itemType := "shape", shape := "can", x := 0, y := 0,
    content := "<p><strong>Zeta Store</strong></p>", fillColor := "#123456" }

def shapeWebRect : Shape :=
  { id := "v2", itemType := "shape", shape := "rectangle", x := 100, y := 0,
    content := "<p><strong>Alpha Web</strong></p>", fillColor := "#654321" }

def v6Frame : Frame :=
  { id := "f6", title := "Container Diagram (Level 2)",
    childrenIds := ["v1", "v2"], children := none }

def v6Items : List BoardItem :=
  [BoardItem.shape shapeCanStore, BoardItem.shape shapeWebRect]

def circleNearAlice : Shape :=
  { id := "ca", itemType := "shape", shape := "circle", x := 50, y := 80,
    content := "", fillColor := "#ffffff" }

def personAlice : Shape :=
  { id := "pa", itemType := "shape", shape := "round_rectangle", x := 50, y := 100,
    content := "<p><strong>Alice</strong></p><p><span>West side</span></p>",
    fillColor := "#305bab" }

def circleNearBob : Shape :=
  { id := "cb", itemType := "shape", shape := "circle", x := 10, y := 80,
    content := "", fillColor := "#ffffff" }

def personBob : Shape :=
  { id := "pb", itemType := "shape", shape := "round_rectangle", x := 10, y := 100,
    content := "<p><strong>Bob</strong></p>", fillColor := "#305bab" }

def c7Frame : Frame :=
  { id := "f7", title := "Context Diagram (Level 1)",
    childrenIds := ["ca", "pa", "cb", "pb"], children := none }

def c7Items : List BoardItem :=
  [BoardItem.shape circleNearAlice, BoardItem.shape personAlice,
   BoardItem.shape circleNearBob, BoardItem.shape personBob]

/-- A parser state that has already emitted a container named `Ext One`. -/
def extSeenState : ContainerParser.ContainerProcessingState :=
  { ContainerParser.initialState "T" (mkShapeMap [shapeExt1]) with
    containerNames := ["Ext One"] }

/-! ## Claim theorems -/

/-! Sanity evaluations of the embedded text pipeline and connector logic. -/

example : cleanContent "<p><strong>Employee</strong></p>" = "Employee" := by decide
example : parseHtmlContent "<p><strong>Employee</strong></p>" = ⟨"Employee", ""⟩ := by decide
example : shapeTitle shapeA = "A" := by decide
example : shapeTitle shapeEmpty = "" := by decide
example :
    (C4UtilsV1.processConnectors [connStartArrow] mapAB).integrations =
      [⟨1, "A", "B", []⟩] := by decide
example :
    (C4UtilsV1.processConnectors [connStartArrow] mapAB).incomingCount "A" = 1 := by decide
example :
    (C4UtilsV1.processConnectors [connBothArrows] mapAB).bidirectionalRelationships =
      [("A", "B")] := by decide
example :
    (C4UtilsV1.processConnectors [connBothArrows] mapEmptyB).bidirectionalRelationships =
      [] := by decide
example :
    (C4UtilsSync.processConnectors [connBothArrows] mapAB).bidirectionalRelationships =
      [("A", "B")] := by decide

lemma jsSortBy_pairwise {α : Type} (le : α → α → Bool)
    (htrans : ∀ a b c, le a b = true → le b c = true → le a c = true)
    (htotal : ∀ a b, (le a b || le b a) = true) (l : List α) :
    List.Pairwise (fun a b => le a b = true) (jsSortBy le l) := by
  unfold jsSortBy
  have ht : IsTotal α (fun a b => le a b = true) := ⟨by
    intro a b
    rcases Bool.or_eq_true_iff.mp (htotal a b) with h | h
    · exact Or.inl h
    · exact Or.inr h⟩
  have htr : IsTrans α (fun a b => le a b = true) := ⟨fun a b c => htrans a b c⟩
  exact List.sorted_insertionSort _ l


/-- C9: on the exact input
`"<p><strong>Title</strong></p><p><span>Line1<br/>Line2</span></p>"` the text
normalizer `parseHtmlContent` returns the title `"Title"` and a description
containing `"Line1"` and `"Line2"` separated by a line break at the position
of the `<br/>` marker. -/
theorem c9_parseHtmlContent_title_and_linebreak :
    parseHtmlContent "<p><strong>Title</strong></p><p><span>Line1<br/>Line2</span></p>" =
      { title := "Title", description := "Line1\nLine2" } := by
  decide

/-- C2 counterexample: a connector with arrowheads on both ends whose start
shape resolves but has an empty derived title.  `processConnectors` records
no `(source-title, target-title)` pair for it, so the claim that every such
connector has its pair recorded in `bidirectionalRelationships` is false at
this input. -/
theorem c2_counterexample_empty_title_pair_not_recorded :
    hasArrowCap connBothArrows.startStrokeCap = true ∧
    hasArrowCap connBothArrows.endStrokeCap = true ∧
    connBothArrows.startItem.bind (lookupShape mapEmptyB) = some shapeEmpty ∧
    connBothArrows.endItem.bind (lookupShape mapEmptyB) = some shapeB ∧
    shapeTitle shapeEmpty = "" ∧
    (C4UtilsV1.processConnectors [connBothArrows] mapEmptyB).bidirectionalRelationships = [] := by
  decide

/-- C2 (amended): for every connector whose two ends both carry an arrowhead
style, `processConnectors` appends no integration and increments no
dependency count; the (source-title, target-title) pair is recorded exactly
when both derived titles are non-empty. -/
theorem c2_bidirectional_connector_effect
    (allShapes : List BoardItem) (shapeMap : List (String × Shape))
    (st : C4UtilsV1.ConnResult) (c : Connector) (s t : Shape)
    (hs : c.startItem.bind (lookupShape shapeMap) = some s)
    (ht : c.endItem.bind (lookupShape shapeMap) = some t)
    (hstart : hasArrowCap c.startStrokeCap = true)
    (hend : hasArrowCap c.endStrokeCap = true) :
    (C4UtilsV1.processOneConnector allShapes shapeMap st c).integrations = st.integrations ∧
    (C4UtilsV1.processOneConnector allShapes shapeMap st c).incomingCount = st.incomingCount ∧
    (C4UtilsV1.processOneConnector allShapes shapeMap st c).outgoingCount = st.outgoingCount ∧
    (C4UtilsV1.processOneConnector allShapes shapeMap st c).bidirectionalRelationships =
      (if shapeTitle s ≠ "" ∧ shapeTitle t ≠ "" then
        st.bidirectionalRelationships ++ [(shapeTitle s, shapeTitle t)]
      else st.bidirectionalRelationships) := by
  unfold C4UtilsV1.processOneConnector
  rw [hs, ht]
  simp only [hstart, hend, Bool.and_self, if_pos]
  by_cases h1 : shapeTitle s = "" <;> by_cases h2 : shapeTitle t = "" <;>
    simp [h1, h2]

/-- Witness for `c2_bidirectional_connector_effect` at a concrete
both-arrowed connector between two titled shapes. -/
theorem c2_bidirectional_connector_effect_witness :
    (C4UtilsV1.processOneConnector [] mapAB C4UtilsV1.initState connBothArrows).integrations =
        C4UtilsV1.initState.integrations ∧
    (C4UtilsV1.processOneConnector [] mapAB C4UtilsV1.initState connBothArrows).incomingCount =
        C4UtilsV1.initState.incomingCount ∧
    (C4UtilsV1.processOneConnector [] mapAB C4UtilsV1.initState connBothArrows).outgoingCount =
        C4UtilsV1.initState.outgoingCount ∧
    (C4UtilsV1.processOneConnector [] mapAB C4UtilsV1.initState connBothArrows).bidirectionalRelationships =
      (if shapeTitle shapeA ≠ "" ∧ shapeTitle shapeB ≠ "" then
        C4UtilsV1.initState.bidirectionalRelationships ++ [(shapeTitle shapeA, shapeTitle shapeB)]
      else C4UtilsV1.initState.bidirectionalRelationships) :=
  c2_bidirectional_connector_effect [] mapAB C4UtilsV1.initState connBothArrows shapeA shapeB
    (by decide) (by decide) (by decide) (by decide)

/-- C10: a both-arrowed connector one of whose derived endpoint titles is
empty is skipped silently: no bidirectional pair is recorded, no integration
appended, no count incremented, and on its own it never triggers the
blocking bidirectional error or prevents document production. -/
theorem c10_empty_title_bidirectional_skipped
    (allShapes : List BoardItem) (shapeMap : List (String × Shape))
    (st : C4UtilsV1.ConnResult) (c : Connector) (s t : Shape)
    (hs : c.startItem.bind (lookupShape shapeMap) = some s)
    (ht : c.endItem.bind (lookupShape shapeMap) = some t)
    (hstart : hasArrowCap c.startStrokeCap = true)
    (hend : hasArrowCap c.endStrokeCap = true)
    (hempty : shapeTitle s = "" ∨ shapeTitle t = "")
    (cst : ContainerParser.ContainerProcessingState)
    (mdl : ContextParserV1.C4ContextModel) (w e : List String) :
    C4UtilsV1.processOneConnector allShapes shapeMap st c = st ∧
    (C4UtilsV1.processConnectors [c] shapeMap).bidirectionalRelationships = [] ∧
    (C4UtilsV1.processConnectors [c] shapeMap).integrations = [] ∧
    (C4UtilsV1.processConnectors [c] shapeMap).incomingCount = (fun _ => 0) ∧
    (C4UtilsV1.processConnectors [c] shapeMap).outgoingCount = (fun _ => 0) ∧
    (ContainerParser.validateAndReturnContainerResult cst
        (C4UtilsV1.processConnectors [c] shapeMap).bidirectionalRelationships).model =
      some cst.model ∧
    (ContextParserV1.contextBidirGate mdl w e []).model = some mdl := by
  have hstep : ∀ (A : List BoardItem) (st' : C4UtilsV1.ConnResult),
      C4UtilsV1.processOneConnector A shapeMap st' c = st' := by
    intro A st'
    unfold C4UtilsV1.processOneConnector
    rw [hs, ht]
    simp only [hstart, hend, Bool.and_self, if_pos]
    rcases hempty with h | h <;> simp [h]
  have hrun : C4UtilsV1.processConnectors [c] shapeMap = C4UtilsV1.initState := by
    unfold C4UtilsV1.processConnectors
    simp [hstep]
  refine ⟨hstep _ _, ?_, ?_, ?_, ?_, ?_, ?_⟩
  · rw [hrun]; rfl
  · rw [hrun]; rfl
  · rw [hrun]; rfl
  · rw [hrun]; rfl
  · rw [hrun]; rfl
  · rfl

/-- Witness for `c10_empty_title_bidirectional_skipped` at a concrete
both-arrowed connector whose start shape has empty content. -/
theorem c10_empty_title_bidirectional_skipped_witness :
    C4UtilsV1.processOneConnector [] mapEmptyB C4UtilsV1.initState connBothArrows =
        C4UtilsV1.initState ∧
    (C4UtilsV1.processConnectors [connBothArrows] mapEmptyB).bidirectionalRelationships = [] ∧
    (C4UtilsV1.processConnectors [connBothArrows] mapEmptyB).integrations = [] ∧
    (C4UtilsV1.processConnectors [connBothArrows] mapEmptyB).incomingCount = (fun _ => 0) ∧
    (C4UtilsV1.processConnectors [connBothArrows] mapEmptyB).outgoingCount = (fun _ => 0) ∧
    (ContainerParser.validateAndReturnContainerResult
        { model := { level := "Container", title := "T", people := [], containers := [],
                     systems := [], integrations := [] },
          warnings := [], errors := [], shapeMap := mapEmptyB, containerNames := [] }
        (C4UtilsV1.processConnectors [connBothArrows] mapEmptyB).bidirectionalRelationships).model =
      some { level := "Container", title := "T", people := [], containers := [],
             systems := [], integrations := [] } ∧
    (ContextParserV1.contextBidirGate
        { level := "Context", title := "T", people := [], systems := [], integrations := [] }
        [] [] []).model =
      some { level := "Context", title := "T", people := [], systems := [], integrations := [] } :=
  c10_empty_title_bidirectional_skipped [] mapEmptyB C4UtilsV1.initState connBothArrows
    shapeEmpty shapeB (by decide) (by decide) (by decide) (by decide) (Or.inl (by decide))
    _ _ [] []

/-- C4 counterexample: for a connector with an arrowhead only at its start
end between two non-actor shapes titled `A` (start) and `B` (end), the
dependency counts are indeed reversed (`B` gains an outgoing, `A` an incoming
count), but the emitted relationship still records `source = "A"`,
`depends-on = "B"` — it expresses that the source depends on the target, not
that the target depends on the source as the claim states. -/
theorem c4_counterexample_emitted_relationship_not_reversed :
    hasArrowCap connStartArrow.startStrokeCap = true ∧
    hasArrowCap connStartArrow.endStrokeCap = false ∧
    (C4UtilsV1.processConnectors [connStartArrow] mapAB).outgoingCount "B" = 1 ∧
    (C4UtilsV1.processConnectors [connStartArrow] mapAB).incomingCount "A" = 1 ∧
    (C4UtilsV1.processConnectors [connStartArrow] mapAB).integrations =
      [{ number := 1, source := "A", dependsOn := "B", description := [] }] ∧
    ¬ (C4UtilsV1.processConnectors [connStartArrow] mapAB).integrations.any
        (fun g => g.source = "B" && g.dependsOn = "A") = true := by
  decide

/-- C4 (amended): for a connector with an arrowhead only at its start end and
non-empty endpoint titles, the dependency counts are reversed — the end-side
node's outgoing count and the start-side node's incoming count are
incremented — provided neither endpoint classifies as an actor; the emitted
relationship entry, however, still lists the start-side title as `source` and
the end-side title as `depends-on`. -/
theorem c4_start_arrow_reverses_counts
    (allShapes : List BoardItem) (shapeMap : List (String × Shape))
    (st : C4UtilsV1.ConnResult) (c : Connector) (s t : Shape)
    (hs : c.startItem.bind (lookupShape shapeMap) = some s)
    (ht : c.endItem.bind (lookupShape shapeMap) = some t)
    (hstart : hasArrowCap c.startStrokeCap = true)
    (hend : hasArrowCap c.endStrokeCap = false)
    (hts : shapeTitle s ≠ "") (htt : shapeTitle t ≠ "") :
    (C4UtilsV1.processOneConnector allShapes shapeMap st c).integrations =
      st.integrations ++
        [{ number := st.integrations.length + 1, source := shapeTitle s,
           dependsOn := shapeTitle t, description := C4UtilsV1.connectorCaptionTexts c }] ∧
    (isPerson s allShapes = false → isPerson t allShapes = false →
      (C4UtilsV1.processOneConnector allShapes shapeMap st c).outgoingCount =
          bump st.outgoingCount (shapeTitle t) ∧
      (C4UtilsV1.processOneConnector allShapes shapeMap st c).incomingCount =
          bump st.incomingCount (shapeTitle s)) := by
  unfold C4UtilsV1.processOneConnector
  rw [hs, ht]
  constructor
  · simp [hstart, hend, hts, htt]
    by_cases hp : isPerson s allShapes <;> by_cases hq : isPerson t allShapes <;>
      simp [hp, hq]
  · intro hp hq
    simp [hstart, hend, hts, htt, hp, hq]

/-- Witness for `c4_start_arrow_reverses_counts` at a concrete start-arrowed
connector between the non-actor shapes `A` and `B`. -/
theorem c4_start_arrow_reverses_counts_witness :
    (C4UtilsV1.processOneConnector [] mapAB C4UtilsV1.initState connStartArrow).integrations =
      C4UtilsV1.initState.integrations ++
        [{ number := C4UtilsV1.initState.integrations.length + 1, source := shapeTitle shapeA,
           dependsOn := shapeTitle shapeB,
           description := C4UtilsV1.connectorCaptionTexts connStartArrow }] ∧
    (C4UtilsV1.processOneConnector [] mapAB C4UtilsV1.initState connStartArrow).outgoingCount =
      bump C4UtilsV1.initState.outgoingCount (shapeTitle shapeB) ∧
    (C4UtilsV1.processOneConnector [] mapAB C4UtilsV1.initState connStartArrow).incomingCount =
      bump C4UtilsV1.initState.incomingCount (shapeTitle shapeA) := by
  have h := c4_start_arrow_reverses_counts [] mapAB C4UtilsV1.initState connStartArrow
    shapeA shapeB (by decide) (by decide) (by decide) (by decide) (by decide) (by decide)
  exact ⟨h.1, h.2 (by decide) (by decide)⟩

lemma processOneConnector_incomingCount (A : List BoardItem) (m : List (String × Shape))
    (st : C4UtilsV1.ConnResult) (c : Connector) (N : String) :
    (C4UtilsV1.processOneConnector A m st c).incomingCount N =
      st.incomingCount N + (if countsIncomingFor A m N c then 1 else 0) := by
  unfold C4UtilsV1.processOneConnector countsIncomingFor
  rcases hS : c.startItem.bind (lookupShape m) with _ | s <;>
    rcases hT : c.endItem.bind (lookupShape m) with _ | t <;>
    simp only [hS, hT]
  · simp
  · simp
  · simp
  · by_cases h1 : hasArrowCap c.startStrokeCap <;>
      by_cases h2 : hasArrowCap c.endStrokeCap <;>
      by_cases h3 : shapeTitle s = "" <;>
      by_cases h4 : shapeTitle t = "" <;>
      by_cases h5 : isPerson s A = true <;>
      by_cases h6 : isPerson t A = true <;>
      by_cases h7 : shapeTitle t = N <;>
      by_cases h8 : shapeTitle s = N <;>
      simp_all [bump] <;>
      first
      | exact Ne.symm h7
      | exact Ne.symm h8

lemma processOneConnector_outgoingCount (A : List BoardItem) (m : List (String × Shape))
    (st : C4UtilsV1.ConnResult) (c : Connector) (N : String) :
    (C4UtilsV1.processOneConnector A m st c).outgoingCount N =
      st.outgoingCount N + (if countsOutgoingFor A m N c then 1 else 0) := by
  unfold C4UtilsV1.processOneConnector countsOutgoingFor
  rcases hS : c.startItem.bind (lookupShape m) with _ | s <;>
    rcases hT : c.endItem.bind (lookupShape m) with _ | t <;>
    simp only [hS, hT]
  · simp
  · simp
  · simp
  · by_cases h1 : hasArrowCap c.startStrokeCap <;>
      by_cases h2 : hasArrowCap c.endStrokeCap <;>
      by_cases h3 : shapeTitle s = "" <;>
      by_cases h4 : shapeTitle t = "" <;>
      by_cases h5 : isPerson s A = true <;>
      by_cases h6 : isPerson t A = true <;>
      by_cases h7 : shapeTitle t = N <;>
      by_cases h8 : shapeTitle s = N <;>
      simp_all [bump] <;>
      first
      | exact Ne.symm h7
      | exact Ne.symm h8

lemma foldl_processOneConnector_incomingCount (A : List BoardItem)
    (m : List (String × Shape)) (N : String) (cs : List Connector) :
    ∀ st : C4UtilsV1.ConnResult,
      ((cs.foldl (C4UtilsV1.processOneConnector A m) st).incomingCount N) =
        st.incomingCount N + cs.countP (countsIncomingFor A m N) := by
  induction cs with
  | nil => intro st; simp
  | cons c cs ih =>
    intro st
    rw [List.foldl_cons, List.countP_cons, ih, processOneConnector_incomingCount]
    by_cases h : countsIncomingFor A m N c <;> simp [h] <;> omega

lemma foldl_processOneConnector_outgoingCount (A : List BoardItem)
    (m : List (String × Shape)) (N : String) (cs : List Connector) :
    ∀ st : C4UtilsV1.ConnResult,
      ((cs.foldl (C4UtilsV1.processOneConnector A m) st).outgoingCount N) =
        st.outgoingCount N + cs.countP (countsOutgoingFor A m N) := by
  induction cs with
  | nil => intro st; simp
  | cons c cs ih =>
    intro st
    rw [List.foldl_cons, List.countP_cons, ih, processOneConnector_outgoingCount]
    by_cases h : countsOutgoingFor A m N c <;> simp [h] <;> omega

/-- C3 counterexample: one connector with an arrowhead only at its start end
between the non-actor shapes `A` (start) and `B` (end).  The emitted
relationship list contains exactly one relationship targeting `B` with both
endpoints non-actors, yet `incoming(B) = 0` (the start-arrow convention
reverses the counted direction), so the claimed identity
`incoming(N) = |{relationships targeting N, both endpoints non-actor}|`
fails at `N = "B"`. -/
theorem c3_counterexample_incoming_not_target_count :
    isPerson shapeA ((mapAB.map Prod.snd).map BoardItem.shape) = false ∧
    isPerson shapeB ((mapAB.map Prod.snd).map BoardItem.shape) = false ∧
    (C4UtilsV1.processConnectors [connStartArrow] mapAB).integrations =
      [{ number := 1, source := "A", dependsOn := "B", description := [] }] ∧
    ((C4UtilsV1.processConnectors [connStartArrow] mapAB).integrations.filter
        (fun g => g.dependsOn = "B")).length = 1 ∧
    (C4UtilsV1.processConnectors [connStartArrow] mapAB).incomingCount "B" = 0 ∧
    (C4UtilsV1.processConnectors [connStartArrow] mapAB).incomingCount "B" ≠
      ((C4UtilsV1.processConnectors [connStartArrow] mapAB).integrations.filter
        (fun g => g.dependsOn = "B")).length := by
  decide

/-- C3 (amended): for every node `N`, `incoming(N)` equals the number of
processed connectors that resolve, are not bidirectional, have non-empty
titles and non-actor endpoints, and whose dependency direction points at `N`
(end arrowhead targeting `N`, or start arrowhead alone with source `N`);
symmetrically for `outgoing(N)`.  In particular a connector with an actor
endpoint increments no count, and emitted relationships that are
direction-reversed or directionless do not enter the incoming/outgoing
tallies the way the original claim stated. -/
theorem c3_dependency_count_characterisation
    (connectors : List Connector) (shapeMap : List (String × Shape)) (N : String) :
    (C4UtilsV1.processConnectors connectors shapeMap).incomingCount N =
      connectors.countP
        (countsIncomingFor ((shapeMap.map Prod.snd).map BoardItem.shape) shapeMap N) ∧
    (C4UtilsV1.processConnectors connectors shapeMap).outgoingCount N =
      connectors.countP
        (countsOutgoingFor ((shapeMap.map Prod.snd).map BoardItem.shape) shapeMap N) := by
  unfold C4UtilsV1.processConnectors
  constructor
  · rw [foldl_processOneConnector_incomingCount]
    simp [C4UtilsV1.initState]
  · rw [foldl_processOneConnector_outgoingCount]
    simp [C4UtilsV1.initState]

lemma circleShapeOf_eq_some {it : BoardItem} {c : Shape} :
    circleShapeOf it = some c ↔
      it = BoardItem.shape c ∧ c.itemType = "shape" ∧ c.shape = "circle" := by
  cases it <;> simp only [circleShapeOf]
  case shape s =>
    by_cases h1 : s.itemType = "shape" <;> by_cases h2 : s.shape = "circle" <;>
      simp [h1, h2] <;> aesop
  all_goals simp

lemma isPerson_eq_any (shape : Shape) (items : List BoardItem) :
    isPerson shape items =
      (shape.shape = "round_rectangle" &&
       (items.filterMap circleShapeOf).any (fun circle =>
         (circle.x - shape.x).natAbs < 100 && (circle.y - shape.y).natAbs < 150)) := by
  unfold isPerson
  by_cases h1 : shape.shape = "round_rectangle"
  · simp only [h1, ne_eq, not_true_eq_false, if_false, decide_True, Bool.true_and]
    by_cases h2 : items = []
    · subst h2; simp
    · rw [if_neg h2]
      generalize items.filterMap circleShapeOf = l
      cases l <;> simp
  · simp [h1]

/-- C5: `isPerson` returns true exactly when the shape's geometric form is
`round_rectangle` and the board-item collection contains at least one circle
shape whose centre lies strictly within 100 horizontal and 150 vertical units
of the shape's position. -/
theorem c5_isPerson_characterisation (shape : Shape) (items : List BoardItem) :
    isPerson shape items = true ↔
      shape.shape = "round_rectangle" ∧
      ∃ circle : Shape, BoardItem.shape circle ∈ items ∧ circle.itemType = "shape" ∧
        circle.shape = "circle" ∧ (circle.x - shape.x).natAbs < 100 ∧
        (circle.y - shape.y).natAbs < 150 := by
  rw [isPerson_eq_any]
  simp only [Bool.and_eq_true, List.any_eq_true, List.mem_filterMap,
    circleShapeOf_eq_some, decide_eq_true_eq]
  constructor
  · rintro ⟨hform, c, ⟨it, hit, rfl, hty, hcirc⟩, hx, hy⟩
    exact ⟨hform, c, hit, hty, hcirc, hx, hy⟩
  · rintro ⟨hform, c, hit, hty, hcirc, hx, hy⟩
    exact ⟨hform, c, ⟨_, hit, rfl, hty, hcirc⟩, hx, hy⟩

/-- C8 counterexample: two rectangle shapes normalizing to the same name
`Ext One` both classify as external systems, and `processShapeIntoModel`
appends both to the systems list — the second shape is not dropped, and two
emitted nodes share a name. -/
theorem c8_counterexample_duplicate_system_names :
    ((ContainerParser.processAllShapesIntoModel
        [BoardItem.shape shapeExt1, BoardItem.shape shapeExt2]
        (fun _ => 0) (fun _ => 0)
        (ContainerParser.initialState "T"
          (mkShapeMap [shapeExt1, shapeExt2]))).model.systems.map
      (fun s => s.name)) = ["Ext One", "Ext One"] ∧
    ¬ ((ContainerParser.processAllShapesIntoModel
        [BoardItem.shape shapeExt1, BoardItem.shape shapeExt2]
        (fun _ => 0) (fun _ => 0)
        (ContainerParser.initialState "T"
          (mkShapeMap [shapeExt1, shapeExt2]))).model.systems.map
      (fun s => s.name)).Nodup := by
  decide

lemma c8_push_inv (name : String) (type : ContainerType) (description : String)
    (dependencies : C4Dependencies) (st : ContainerParser.ContainerProcessingState)
    (h : ContainerParser.namesInv st) :
    ContainerParser.namesInv
      (ContainerParser.pushContainer name type description dependencies st) := by
  obtain ⟨h1, h2⟩ := h
  unfold ContainerParser.pushContainer
  by_cases hc : st.containerNames.contains name = true
  · rw [if_pos hc]
    exact ⟨h1, h2⟩
  · rw [if_neg hc]
    have hnot : name ∉ st.model.containers.map (fun c => c.name) := by
      rw [← h2]
      simpa using hc
    constructor
    · simp only [List.map_append, List.map_cons, List.map_nil]
      rw [List.nodup_append]
      refine ⟨h1, List.nodup_singleton _, ?_⟩
      intro a ha hb
      rw [List.mem_singleton] at hb
      subst hb
      exact hnot ha
    · intro n
      simp only [List.map_append, List.map_cons, List.map_nil, List.mem_append,
        List.mem_singleton, h2]

lemma c8_step_inv (shape : Shape) (items : List BoardItem)
    (incomingCount outgoingCount : String → Nat)
    (st : ContainerParser.ContainerProcessingState)
    (h : ContainerParser.namesInv st) :
    ContainerParser.namesInv
      (ContainerParser.processShapeIntoModel shape items incomingCount outgoingCount st) := by
  simp only [ContainerParser.processShapeIntoModel]
  by_cases hA : shape.content = ""
  · rw [if_pos hA]; exact h
  rw [if_neg hA]
  by_cases hB : ContainerParser.isPlaceholderContent (toLowerStr (cleanContent shape.content)) = true
  · rw [if_pos hB]; exact h
  rw [if_neg hB]
  by_cases hC : strOr (parseHtmlContent shape.content).title
      (strOr (firstLine (cleanContent shape.content)) "") = ""
  · rw [if_pos hC]; exact h
  rw [if_neg hC]
  by_cases hD : isPerson shape items = true
  · rw [if_pos hD]; exact h
  rw [if_neg hD]
  by_cases hE : shape.shape = "round_rectangle"
  · rw [if_pos hE]; exact c8_push_inv _ _ _ _ st h
  rw [if_neg hE]
  by_cases hF : shape.shape = "can"
  · rw [if_pos hF]; exact c8_push_inv _ _ _ _ st h
  rw [if_neg hF]
  by_cases hG : shape.shape = "rectangle"
  · rw [if_pos hG]
    by_cases hH : containsSub (toLowerStr (strOr (parseHtmlContent shape.content).title
        (strOr (firstLine (cleanContent shape.content)) ""))) "web" = true
    · rw [if_pos hH]; exact c8_push_inv _ _ _ _ st h
    rw [if_neg hH]
    by_cases hI : containsSub (toLowerStr (strOr (parseHtmlContent shape.content).title
        (strOr (firstLine (cleanContent shape.content)) ""))) "mobile" = true
    · rw [if_pos hI]; exact c8_push_inv _ _ _ _ st h
    rw [if_neg hI]
    exact h
  rw [if_neg hG]
  exact h

lemma c8_fold_inv (items : List BoardItem) (incomingCount outgoingCount : String → Nat)
    (shapes : List Shape) :
    ∀ st : ContainerParser.ContainerProcessingState,
      ContainerParser.namesInv st →
      ContainerParser.namesInv
        (shapes.foldl
          (fun st shape =>
            ContainerParser.processShapeIntoModel shape items incomingCount outgoingCount st)
          st) := by
  induction shapes with
  | nil => intro st h; simpa using h
  | cons s rest ih =>
    intro st h
    rw [List.foldl_cons]
    exact ih _ (c8_step_inv s items incomingCount outgoingCount st h)

lemma c8_push_tail (name : String) (type : ContainerType) (description : String)
    (dependencies : C4Dependencies) (st : ContainerParser.ContainerProcessingState) :
    ∃ tail, (ContainerParser.pushContainer name type description dependencies
        st).model.containers = st.model.containers ++ tail := by
  unfold ContainerParser.pushContainer
  by_cases hc : st.containerNames.contains name = true
  · rw [if_pos hc]; exact ⟨[], by simp⟩
  · rw [if_neg hc]; exact ⟨_, rfl⟩

lemma c8_step_containers_cases (shape : Shape) (items : List BoardItem)
    (incomingCount outgoingCount : String → Nat)
    (st : ContainerParser.ContainerProcessingState) :
    (ContainerParser.processShapeIntoModel shape items incomingCount outgoingCount
        st).model.containers = st.model.containers ∨
    ∃ type description dependencies,
      ContainerParser.processShapeIntoModel shape items incomingCount outgoingCount st =
        ContainerParser.pushContainer
          (strOr (parseHtmlContent shape.content).title
            (strOr (firstLine (cleanContent shape.content)) ""))
          type description dependencies st := by
  simp only [ContainerParser.processShapeIntoModel]
  by_cases hA : shape.content = ""
  · rw [if_pos hA]; exact Or.inl rfl
  rw [if_neg hA]
  by_cases hB : ContainerParser.isPlaceholderContent (toLowerStr (cleanContent shape.content)) = true
  · rw [if_pos hB]; exact Or.inl rfl
  rw [if_neg hB]
  by_cases hC : strOr (parseHtmlContent shape.content).title
      (strOr (firstLine (cleanContent shape.content)) "") = ""
  · rw [if_pos hC]; exact Or.inl rfl
  rw [if_neg hC]
  by_cases hD : isPerson shape items = true
  · rw [if_pos hD]; exact Or.inl rfl
  rw [if_neg hD]
  by_cases hE : shape.shape = "round_rectangle"
  · rw [if_pos hE]; exact Or.inr ⟨_, _, _, rfl⟩
  rw [if_neg hE]
  by_cases hF : shape.shape = "can"
  · rw [if_pos hF]; exact Or.inr ⟨_, _, _, rfl⟩
  rw [if_neg hF]
  by_cases hG : shape.shape = "rectangle"
  · rw [if_pos hG]
    by_cases hH : containsSub (toLowerStr (strOr (parseHtmlContent shape.content).title
        (strOr (firstLine (cleanContent shape.content)) ""))) "web" = true
    · rw [if_pos hH]; exact Or.inr ⟨_, _, _, rfl⟩
    rw [if_neg hH]
    by_cases hI : containsSub (toLowerStr (strOr (parseHtmlContent shape.content).title
        (strOr (firstLine (cleanContent shape.content)) ""))) "mobile" = true
    · rw [if_pos hI]; exact Or.inr ⟨_, _, _, rfl⟩
    rw [if_neg hI]
    exact Or.inl rfl
  rw [if_neg hG]
  exact Or.inl rfl

/-- C8 (amended): duplicate suppression applies to containers only.  Starting
from the parser's initial state, no two emitted containers share a name, the
containers list only ever grows by appending (so the first-seen shape's entry
is the one kept), and a shape whose derived name is already a container name
leaves the containers list unchanged; shapes classified as external systems
(and people) are appended without any duplicate check, so the systems list
may contain repeated names. -/
theorem c8_duplicate_names_container_only
    (frameTitle : String) (shapeMap : List (String × Shape)) (items : List BoardItem)
    (incomingCount outgoingCount : String → Nat) :
    ((ContainerParser.processAllShapesIntoModel items incomingCount outgoingCount
        (ContainerParser.initialState frameTitle shapeMap)).model.containers.map
      (fun c => c.name)).Nodup ∧
    (∀ (shape : Shape) (st : ContainerParser.ContainerProcessingState),
      ∃ tail,
        (ContainerParser.processShapeIntoModel shape items incomingCount outgoingCount
          st).model.containers = st.model.containers ++ tail) ∧
    (∀ (shape : Shape) (st : ContainerParser.ContainerProcessingState),
      st.containerNames.contains
          (strOr (parseHtmlContent shape.content).title
            (strOr (firstLine (cleanContent shape.content)) "")) = true →
        (ContainerParser.processShapeIntoModel shape items incomingCount outgoingCount
          st).model.containers = st.model.containers) := by
  refine ⟨?_, ?_, ?_⟩
  · exact (c8_fold_inv items incomingCount outgoingCount _ _
      ⟨by simp [ContainerParser.initialState], by simp [ContainerParser.initialState]⟩).1
  · intro shape st
    rcases c8_step_containers_cases shape items incomingCount outgoingCount st with
      hcase | ⟨type, description, dependencies, heq⟩
    · exact ⟨[], by rw [hcase, List.append_nil]⟩
    · rw [heq]
      exact c8_push_tail _ _ _ _ st
  · intro shape st hmem
    rcases c8_step_containers_cases shape items incomingCount outgoingCount st with
      hcase | ⟨type, description, dependencies, heq⟩
    · exact hcase
    · rw [heq]
      unfold ContainerParser.pushContainer
      rw [if_pos hmem]

/-- C1: whenever the connector set yields at least one detected bidirectional
pair, the parse result carries no model document, and its error list reports
every detected pair individually and is at least one longer than the number
of pairs (the extra line being the summary; a remediation line follows as
well).  Stated for both sides: `validateAndReturnContainerResult` fed by the
container parser's `processConnectors`, and `parseFrameToC4Context` with the
pair keys detected by its `processConnectors`. -/
theorem c1_bidirectional_all_or_nothing
    (connectors : List Connector) (shapeMap : List (String × Shape))
    (cst : ContainerParser.ContainerProcessingState)
    (allItems : List BoardItem) (frame : Frame)
    (hc : (C4UtilsSync.processConnectors connectors shapeMap).bidirectionalRelationships ≠ [])
    (hctx : (C4UtilsDedup.processConnectors
        ((allItems.filter (fun item => frame.childrenIds.contains item.id)).filterMap
          ContextParserV1.itemAsConnector)
        (mkShapeMap
          ((allItems.filter (fun item => frame.childrenIds.contains item.id)).filterMap
            ContextParserV1.itemAsShape))).bidirectionalRelationships ≠ []) :
    ((ContainerParser.validateAndReturnContainerResult cst
        (C4UtilsSync.processConnectors connectors shapeMap).bidirectionalRelationships).model =
      none ∧
     (C4UtilsSync.processConnectors connectors shapeMap).bidirectionalRelationships.length + 1 ≤
       (ContainerParser.validateAndReturnContainerResult cst
         (C4UtilsSync.processConnectors connectors shapeMap).bidirectionalRelationships).errors.length ∧
     ∀ p ∈ (C4UtilsSync.processConnectors connectors shapeMap).bidirectionalRelationships,
       (p.1 ++ " and " ++ p.2) ∈
         (ContainerParser.validateAndReturnContainerResult cst
           (C4UtilsSync.processConnectors connectors shapeMap).bidirectionalRelationships).errors) ∧
    ((ContextParserV1.parseFrameToC4Context allItems frame).model = none ∧
     (C4UtilsDedup.processConnectors
        ((allItems.filter (fun item => frame.childrenIds.contains item.id)).filterMap
          ContextParserV1.itemAsConnector)
        (mkShapeMap
          ((allItems.filter (fun item => frame.childrenIds.contains item.id)).filterMap
            ContextParserV1.itemAsShape))).bidirectionalRelationships.length + 1 ≤
       (ContextParserV1.parseFrameToC4Context allItems frame).errors.length ∧
     ∀ k ∈ (C4UtilsDedup.processConnectors
        ((allItems.filter (fun item => frame.childrenIds.contains item.id)).filterMap
          ContextParserV1.itemAsConnector)
        (mkShapeMap
          ((allItems.filter (fun item => frame.childrenIds.contains item.id)).filterMap
            ContextParserV1.itemAsShape))).bidirectionalRelationships,
       ContextParserV1.pairKeyLine k ∈
         (ContextParserV1.parseFrameToC4Context allItems frame).errors) := by
  constructor
  · have hlen : 0 <
        (C4UtilsSync.processConnectors connectors shapeMap).bidirectionalRelationships.length :=
      List.length_pos.mpr hc
    unfold ContainerParser.validateAndReturnContainerResult
    rw [if_pos hlen]
    refine ⟨rfl, ?_, ?_⟩
    · simp only [List.length_append, List.length_map, List.length_cons, List.length_nil,
        List.length_singleton]
      omega
    · intro p hp
      simp only [List.mem_append, List.mem_map, List.mem_singleton, List.mem_cons,
        List.mem_nil_iff]
      exact Or.inr (Or.inl (Or.inr ⟨p, hp, rfl⟩))
  · have hne : allItems.filter (fun item => frame.childrenIds.contains item.id) ≠ [] := by
      intro h0
      apply hctx
      rw [h0]
      rfl
    have hlen : 0 <
        (C4UtilsDedup.processConnectors
          ((allItems.filter (fun item => frame.childrenIds.contains item.id)).filterMap
            ContextParserV1.itemAsConnector)
          (mkShapeMap
            ((allItems.filter (fun item => frame.childrenIds.contains item.id)).filterMap
              ContextParserV1.itemAsShape))).bidirectionalRelationships.length :=
      List.length_pos.mpr hctx
    unfold ContextParserV1.parseFrameToC4Context
    rw [if_neg hne, if_pos hlen]
    refine ⟨rfl, ?_, ?_⟩
    · simp only [List.length_append, List.length_map, List.length_cons, List.length_nil,
        List.length_singleton]
      omega
    · intro k hk
      simp only [List.mem_append, List.mem_map, List.mem_singleton, List.mem_cons,
        List.mem_nil_iff]
      exact Or.inl (Or.inr ⟨k, hk, rfl⟩)

/-- Witness for `c1_bidirectional_all_or_nothing`: one both-arrowed connector
on the container side, and two connectors between the same two shapes on the
context side (the duplicate-pair detection of that parser variant). -/
theorem c1_bidirectional_all_or_nothing_witness :
    ((ContainerParser.validateAndReturnContainerResult
        (ContainerParser.initialState "T" mapAB)
        (C4UtilsSync.processConnectors [connBothArrows] mapAB).bidirectionalRelationships).model =
      none ∧
     (C4UtilsSync.processConnectors [connBothArrows] mapAB).bidirectionalRelationships.length + 1 ≤
       (ContainerParser.validateAndReturnContainerResult
         (ContainerParser.initialState "T" mapAB)
         (C4UtilsSync.processConnectors [connBothArrows] mapAB).bidirectionalRelationships).errors.length ∧
     ∀ p ∈ (C4UtilsSync.processConnectors [connBothArrows] mapAB).bidirectionalRelationships,
       (p.1 ++ " and " ++ p.2) ∈
         (ContainerParser.validateAndReturnContainerResult
           (ContainerParser.initialState "T" mapAB)
           (C4UtilsSync.processConnectors [connBothArrows] mapAB).bidirectionalRelationships).errors) ∧
    ((ContextParserV1.parseFrameToC4Context ctxItems ctxFrame).model = none ∧
     (C4UtilsDedup.processConnectors
        ((ctxItems.filter (fun item => ctxFrame.childrenIds.contains item.id)).filterMap
          ContextParserV1.itemAsConnector)
        (mkShapeMap
          ((ctxItems.filter (fun item => ctxFrame.childrenIds.contains item.id)).filterMap
            ContextParserV1.itemAsShape))).bidirectionalRelationships.length + 1 ≤
       (ContextParserV1.parseFrameToC4Context ctxItems ctxFrame).errors.length ∧
     ∀ k ∈ (C4UtilsDedup.processConnectors
        ((ctxItems.filter (fun item => ctxFrame.childrenIds.contains item.id)).filterMap
          ContextParserV1.itemAsConnector)
        (mkShapeMap
          ((ctxItems.filter (fun item => ctxFrame.childrenIds.contains item.id)).filterMap
            ContextParserV1.itemAsShape))).bidirectionalRelationships,
       ContextParserV1.pairKeyLine k ∈
         (ContextParserV1.parseFrameToC4Context ctxItems ctxFrame).errors) :=
  c1_bidirectional_all_or_nothing [connBothArrows] mapAB
    (ContainerParser.initialState "T" mapAB) ctxItems ctxFrame (by decide) (by decide)

lemma containerLe_iff (a b : ContainerParserV6.ProcessedContainer) :
    ContainerParserV6.containerLe a b = true ↔ containerInOrder a b := by
  unfold ContainerParserV6.containerLe containerInOrder
  by_cases h : ContainerParserV6.typeOrder a.type = ContainerParserV6.typeOrder b.type
  · rw [if_neg (by simp [h])]
    simp [h]
  · rw [if_pos h]
    simp [h]

lemma containerLe_trans (a b c : ContainerParserV6.ProcessedContainer)
    (hab : ContainerParserV6.containerLe a b = true)
    (hbc : ContainerParserV6.containerLe b c = true) :
    ContainerParserV6.containerLe a c = true := by
  rw [containerLe_iff] at hab hbc ⊢
  unfold containerInOrder at hab hbc ⊢
  unfold strLe at hab hbc ⊢
  rcases hab with h1 | ⟨h1, h1n⟩ <;> rcases hbc with h2 | ⟨h2, h2n⟩
  · exact Or.inl (h1.trans h2)
  · exact Or.inl (h2 ▸ h1)
  · exact Or.inl (h1 ▸ h2)
  · refine Or.inr ⟨h1.trans h2, ?_⟩
    simp only [decide_eq_true_eq] at h1n h2n ⊢
    exact le_trans h1n h2n

lemma containerLe_total (a b : ContainerParserV6.ProcessedContainer) :
    (ContainerParserV6.containerLe a b || ContainerParserV6.containerLe b a) = true := by
  unfold ContainerParserV6.containerLe
  by_cases h : ContainerParserV6.typeOrder a.type = ContainerParserV6.typeOrder b.type
  · rw [if_neg (by simp [h]), if_neg (by simp [h.symm])]
    unfold strLe
    simp only [Bool.or_eq_true, decide_eq_true_eq]
    exact le_total _ _
  · rw [if_pos h, if_pos (fun hba => h hba.symm)]
    simp only [Bool.or_eq_true, decide_eq_true_eq]
    omega

lemma pairwise_enum_snd {α : Type} {S : α → α → Prop} {l : List α}
    (hl : List.Pairwise S l) :
    List.Pairwise (fun a b => S a.2 b.2) l.enum := by
  rw [List.pairwise_iff_get] at hl ⊢
  intro i j hij
  have hi : (i : Nat) < l.enum.length := i.isLt
  have hj : (j : Nat) < l.enum.length := j.isLt
  have hi' : (i : Nat) < l.length := by simpa [List.enum_length] using hi
  have hj' : (j : Nat) < l.length := by simpa [List.enum_length] using hj
  have hgi : l.enum.get i = ((i : Nat), l.get ⟨i, hi'⟩) := by
    simp [List.get_enum]
  have hgj : l.enum.get j = ((j : Nat), l.get ⟨j, hj'⟩) := by
    simp [List.get_enum]
  rw [hgi, hgj]
  exact hl ⟨i, hi'⟩ ⟨j, hj'⟩ hij

/-- C6: in every container document produced by the sorting container parser
(`parseFrameToC4Container`, part_006), the containers list is ordered by the
fixed category precedence Web App, Mobile App, Container, Database, and
containers of equal category appear in ascending name order. -/
theorem c6_container_category_ordering
    (allItems : List BoardItem) (frame : Frame)
    (mdl : ContainerParserV6.C4ContainerModelV6)
    (h : (ContainerParserV6.parseFrameToC4Container allItems frame).model = some mdl) :
    List.Pairwise containerInOrder mdl.containers := by
  unfold ContainerParserV6.parseFrameToC4Container at h
  by_cases hne : allItems.filter (fun item => frame.childrenIds.contains item.id) = []
  · rw [if_pos hne] at h
    simp only [Option.some.injEq] at h
    subst h
    simp
  · rw [if_neg hne] at h
    by_cases hgate : 0 < (C4UtilsDedup.processConnectors
        ((allItems.filter (fun item => frame.childrenIds.contains item.id)).filterMap
          ContainerParserV6.itemAsConnector)
        (mkShapeMap
          ((allItems.filter (fun item => frame.childrenIds.contains item.id)).filterMap
            ContainerParserV6.itemAsShape))).bidirectionalRelationships.length
    · rw [if_pos hgate] at h
      cases h
    · rw [if_neg hgate] at h
      simp only [Option.some.injEq] at h
      subst h
      rw [List.pairwise_map]
      refine List.Pairwise.imp ?_
        (pairwise_enum_snd (S := fun a b => ContainerParserV6.containerLe a b = true)
          (jsSortBy_pairwise ContainerParserV6.containerLe containerLe_trans
            containerLe_total _))
      intro x y hxy
      exact (containerLe_iff _ _).mp hxy

/-- Witness for `c6_container_category_ordering`: a database cylinder seen
before a Web App rectangle is emitted after it, in category order. -/
theorem c6_container_category_ordering_witness :
    (ContainerParserV6.parseFrameToC4Container v6Items v6Frame).model =
      some
        { level := "Container", title := "Container Diagram (Level 2)",
          people := [],
          containers :=
            [{ name := "Alpha Web", number := 1, type := .webApp,
               description := none, dependencies := ⟨0, 0⟩ },
             { name := "Zeta Store", number := 2, type := .database,
               description := none, dependencies := ⟨0, 0⟩ }],
          systems := [], integrations := [] } ∧
    List.Pairwise containerInOrder
      [({ name := "Alpha Web", number := 1, type := .webApp,
          description := none, dependencies := ⟨0, 0⟩ } :
            ContainerParserV6.ProcessedContainer),
       { name := "Zeta Store", number := 2, type := .database,
         description := none, dependencies := ⟨0, 0⟩ }] :=
  ⟨by decide,
   by
    have h := c6_container_category_ordering v6Items v6Frame
      { level := "Container", title := "Container Diagram (Level 2)",
        people := [],
        containers :=
          [{ name := "Alpha Web", number := 1, type := .webApp,
             description := none, dependencies := ⟨0, 0⟩ },
           { name := "Zeta Store", number := 2, type := .database,
             description := none, dependencies := ⟨0, 0⟩ }],
        systems := [], integrations := [] } (by decide)
    exact h⟩

/-- C7: evaluation of the context parser at the failing input.  Bob's shape
sits at `x = 10`, strictly left of Alice's at `x = 50`, yet the emitted
people list is `[Alice, Bob]`.  The comparator re-finds each actor's shape by
`cleanContent(content) === name`, but Alice's name comes from
`parseHtmlContent` (her shape also carries a description), so the lookup
misses and her x-coordinate is compared as 0 — contradicting the sort's own
stated intent of left-to-right ordering by shape position. -/
theorem c7_actor_ordering_failure_eval :
    ((ContextParserV1.parseFrameToC4Context c7Items c7Frame).model.map
      (fun m => m.people)) = some [{ name := "Alice" }, { name := "Bob" }] ∧
    personAlice.x = 50 ∧ personBob.x = 10 ∧
    (parseHtmlContent personAlice.content).title = "Alice" ∧
    cleanContent personAlice.content ≠ "Alice" ∧
    ContextParserV1.lookupShapeX
      (c7Items.filterMap ContextParserV1.itemAsShape) "Alice" = 0 ∧
    ContextParserV1.lookupShapeX
      (c7Items.filterMap ContextParserV1.itemAsShape) "Bob" = 10 := by
  decide

/-- Witness for `c8_duplicate_names_container_only`: processing a shape whose
derived name is already among the recorded container names leaves the
containers list unchanged. -/
theorem c8_duplicate_names_container_only_witness :
    (ContainerParser.processShapeIntoModel shapeExt1 [] (fun _ => 0) (fun _ => 0)
        extSeenState).model.containers = extSeenState.model.containers :=
  (c8_duplicate_names_container_only "T" (mkShapeMap [shapeExt1]) [] (fun _ => 0)
      (fun _ => 0)).2.2 shapeExt1 extSeenState (by decide)
